import Mathlib

/-!
Verification of the freetzing/relay format-mapping engine.

The development shallowly embeds the JavaScript sources
`src/lib/part.js`, `src/lib/fritzing/bundle.js` (its bundle segment is the
same code as `src/lib/bundle.js`, its sketch segment defines the Sketch
codec) and `src/lib/bin.js`.

The XML text layer (library `xml2js`, an external collaborator of the
repository) is modelled at the level of the node trees it exchanges with the
codec: the serializers build a `BVal` tree (mirroring the JavaScript object
literals handed to the XML builder), the function `transport` models the
builder-then-parse text round trip, and the parsers consume the resulting
`XVal` tree (mirroring the `parseString` output with `explicitCharkey`,
where a node exposes attributes under a string map, text under a char key,
children as name-keyed arrays, and an empty element becomes the empty
string).

JavaScript runtime behaviour relevant to the sources is made explicit:
truthiness of optional string values, `a || b` defaulting, `undefined`
dereferences raising `TypeError`, and the `undefined` receiver that strict
mode gives to plain callback functions.
-/

namespace Freetzing

/-- Errors a parse path can surface: `typeError` models a JavaScript
`TypeError` thrown by dereferencing `undefined`, `emptyEntry name` the
`Error` constructed for a zero-length archive entry (its message text
names the entry), `malformedXml` an `xml2js` parse error. -/
inductive JsErr where
  | typeError
  | emptyEntry (entryName : String)
  | malformedXml
deriving DecidableEq, Repr, Inhabited

/-- A loosely typed JavaScript value as stored by the constructors that
apply `|| false` to a parameter that may be a boolean, a string coming from
an XML attribute, or absent (`undefined`). -/
inductive JsLoose where
  | undefined
  | bool (b : Bool)
  | str (s : String)
deriving DecidableEq, Repr, Inhabited

/-- JavaScript truthiness of a `JsLoose` value: `undefined` and `false`
are falsy, a string is truthy unless empty. -/
def JsLoose.truthy : JsLoose → Bool
  | .undefined => false
  | .bool b => b
  | .str s => !(s == "")

/-- JavaScript `a || b` on loose values: `a` if truthy, else `b`. -/
def jsOr (a b : JsLoose) : JsLoose := if a.truthy then a else b

/-- JavaScript truthiness of an optional string (`undefined` and `""` are
falsy). -/
def jsTruthyStr : Option String → Bool
  | some s => !(s == "")
  | none => false

/-- JavaScript `x || d` where `x` is an optional string and `d` a default
already written as its text (the sources default with the numbers `0`/`1`,
which render as `"0"`/`"1"` in the XML). -/
def jsOrD (x : Option String) (d : String) : String :=
  match x with
  | some s => if s == "" then d else s
  | none => d

/-- An attribute value as placed into a built object literal before the
XML builder stringifies it: a string field, a boolean field, one of the
numeric flags `1`/`0`, or an absent (`undefined`) field written through
unconditionally. -/
inductive BAttrV where
  | s (v : String)
  | b (v : Bool)
  | n (v : Int)
  | undefined
deriving DecidableEq, Repr, Inhabited

/-- `BAttrV` of an optional string model field written straight into an
attribute position. -/
def optA : Option String → BAttrV
  | some v => .s v
  | none => .undefined

/-- `BAttrV` of a loose field written straight into an attribute position. -/
def looseA : JsLoose → BAttrV
  | .undefined => .undefined
  | .bool b => .b b
  | .str s => .s s

/-- Modelled from the spec: the attribute-value rendering of the external
XML builder (`xml2js`, outside this repository).  Spec sections 4.1 and 8
fix the encodings the codec relies on: booleans appear as the attribute
text `true`/`false`, the numeric flags `1`/`0` as `"1"`/`"0"`, strings
verbatim, and an absent (`undefined`) field yields no attribute at all
(spec 4.1, optional attribute presence). -/
def attStr : BAttrV → Option String
  | .s v => some v
  | .b v => some (if v then "true" else "false")
  | .n v => some (toString v)
  | .undefined => none

/-- A node of the object tree handed to the XML builder by the serializers:
either a bare string child (`title: this.title`, the `''` bezier
placeholder) or a node with attribute values, optional text content (the
`_` key) and name-keyed lists of children. -/
inductive BVal where
  | vstr (s : String)
  | vnode (attrs : List (String × BAttrV)) (text : Option String)
      (kids : List (String × List BVal))

/-- A bare string child for an optional model field written through
unconditionally; an absent field builds an empty element. -/
def bOptStr : Option String → BVal
  | some s => .vstr s
  | none => .vstr ""

/-- A node of the tree produced by `xml2js.parseString` with
`explicitCharkey`: an element is either the empty string (the parse of an
empty element, `emptyTag` default) or a node with string attributes, an
optional text key and name-keyed nonempty arrays of children. -/
inductive XVal where
  | emptyStr
  | node (attrs : List (String × String)) (text : Option String)
      (kids : List (String × List XVal))

mutual

/-- Modelled from the spec: the XML text round trip through the external
XML library (serialize with the builder, re-read with `parseString`; spec
section 6 describes the node convention the codec assumes).  Attribute
values are stringified by `attStr` and absent ones dropped; a nonempty
string child reappears as a text-only node and an empty one as the
empty-element marker; child keys with no elements disappear; an element
left with no attributes, no text and no children parses back as the
empty-element marker. -/
def transport : BVal → XVal
  | .vstr s => if s == "" then .emptyStr else .node [] (some s) []
  | .vnode attrs text kids =>
      let attrs2 := attrs.filterMap fun kv =>
        (attStr kv.2).map fun s => (kv.1, s)
      let text2 := match text with
        | some "" => none
        | t => t
      let kids2 := (transportKids kids).filter fun kl => !kl.2.isEmpty
      if attrs2.isEmpty && text2.isNone && kids2.isEmpty then .emptyStr
      else .node attrs2 text2 kids2

/-- `transport` mapped over a kid list. -/
def transportKids : List (String × List BVal) → List (String × List XVal)
  | [] => []
  | (k, l) :: rest => (k, transportList l) :: transportKids rest

/-- `transport` mapped over a child array. -/
def transportList : List BVal → List XVal
  | [] => []
  | b :: r => transport b :: transportList r

end

/-- JavaScript `obj.key` child lookup on a parsed node: `undefined` on the
empty-element marker (a string has no such property), else the name-keyed
array if present. -/
def xChild : XVal → String → Option (List XVal)
  | .emptyStr, _ => none
  | .node _ _ kids, k => kids.lookup k

/-- JavaScript `obj.$` on a parsed node: `xml2js` only adds the attribute
map when the element has attributes, so the result is `undefined` both on
the empty-element marker and on a node without attributes. -/
def xAttrsOpt : XVal → Option (List (String × String))
  | .emptyStr => none
  | .node attrs _ _ => if attrs.isEmpty then none else some attrs

/-- A guarded attribute read, embedding the `getOptionalAttribute` helper
shared by `Part.fromFZP` and `Sketch.fromFZ`: `undefined` unless the node
has an attribute map containing the key. -/
def getOptAttr (v : XVal) (k : String) : Option String :=
  (xAttrsOpt v).bind fun l => l.lookup k

/-- An unguarded `obj.$` dereference (`obj.$.key` patterns): throws
`TypeError` when the attribute map is absent. -/
def xDollar (v : XVal) : Except JsErr (List (String × String)) :=
  match xAttrsOpt v with
  | some l => .ok l
  | none => .error .typeError

/-- JavaScript `obj._` text read: `undefined` on the empty-element marker
(`''._` is `undefined`), else the text key. -/
def xText : XVal → Option String
  | .emptyStr => none
  | .node _ t _ => t

/-- `arr[0]` followed by a required dereference: `TypeError` when the
array is empty (`undefined[…]`/`undefined.…`). -/
def jsElem0 (l : List XVal) : Except JsErr XVal :=
  match l.head? with
  | some v => .ok v
  | none => .error .typeError

/-- The `getOptionalValue` helper shared by `Part.fromFZP` and
`Sketch.fromFZ`: `if (object) return object[0]._`.  An absent child array
gives `undefined`; a present array is truthy even when empty, in which
case `object[0]._` throws. -/
def getOptionalValue : Option (List XVal) → Except JsErr (Option String)
  | none => .ok none
  | some l =>
      match l.head? with
      | some v => .ok (xText v)
      | none => .error .typeError

/-- The `setOptionalValue` helper of `Part.prototype.toFZP` and
`Sketch.prototype.toFZ` (`if (value) obj[key] = value`), at an attribute
position: the key is added only when the value is truthy, so an absent
value and a present empty string are both dropped. -/
def setOptionalAttr (attrs : List (String × BAttrV)) (k : String)
    (v : Option String) : List (String × BAttrV) :=
  match v with
  | some s => if s == "" then attrs else attrs ++ [(k, .s s)]
  | none => attrs

/-- The same `setOptionalValue` helper at a child-element position. -/
def setOptionalKid (kids : List (String × List BVal)) (k : String)
    (v : Option String) : List (String × List BVal) :=
  match v with
  | some s => if s == "" then kids else kids ++ [(k, [.vstr s])]
  | none => kids

/-- The same `setOptionalValue` helper at the text (`_`) position. -/
def setOptionalText (t : Option String) (v : Option String) : Option String :=
  match v with
  | some s => if s == "" then t else some s
  | none => t

/-- The view-name suffixing convention of both codecs: the XML tag of a
view is the bare view name with the literal `View` appended
(`viewSetting.name + 'View'` in `Part.prototype.toFZP` line 1106 and
`Sketch.prototype.toFZ` lines 1597 and 1846). -/
def appendViewSuffix (n : String) : String := n ++ "View"

/-- The inverse convention of both parsers: JavaScript `slice(0, -4)`,
dropping the four-character `View` suffix (`moduleViewKey.slice(0, -4)` in
`Part.fromFZP` lines 1346 and 1385, `Sketch.fromFZ` lines 1959, 2134 and
2168); on a string shorter than four characters it yields the empty
string, as `slice` does. -/
def stripViewSuffix (s : String) : String :=
  String.mk (s.data.take (s.data.length - 4))

/-! ## Sketch document model (`src/lib/fritzing/bundle.js`, sketch segment)

Structures mirror the constructor functions; each `make` definition embeds
the corresponding constructor body, including its `|| default`
coercions.  Numeric model fields (coordinates, matrix entries, thickness,
flags) are carried as strings: the source never computes with them, it
copies them between attribute text and object fields. -/

/-- Modelled from the spec: `Point` lives in `src/lib/global.js`, which is
not in the tree; spec section 3 defines it as an x/y pair.  Coordinates
are optional because the parsers store the result of attribute reads,
which may be `undefined`. -/
structure Point where
  x : Option String
  y : Option String
deriving DecidableEq, Repr, Inhabited

/-- Modelled from the spec: `Property` lives in `src/lib/global.js`, which
is not in the tree; spec section 3 defines it as a name/value string
pair. -/
structure Property where
  name : Option String
  value : Option String
deriving DecidableEq, Repr, Inhabited

/-- A Bezier curve: two control points (`Bezier` constructor). -/
structure Bezier where
  cp0 : Point
  cp1 : Point
deriving DecidableEq, Repr, Inhabited

/-- A leg entry: a point with an optional Bezier (`PointBezierPair`). -/
structure PointBezierPair where
  point : Point
  bezier : Option Bezier
deriving DecidableEq, Repr, Inhabited

/-- Three-dimensional point (`Geometry` constructor). -/
structure Geometry where
  x : Option String
  y : Option String
  z : Option String
deriving DecidableEq, Repr, Inhabited

/-- A 3x3 affine matrix (`Transform` constructor): every entry is
defaulted through `||` with the identity entries `1`/`0`. -/
structure Transform where
  m11 : String
  m12 : String
  m13 : String
  m21 : String
  m22 : String
  m23 : String
  m31 : String
  m32 : String
  m33 : String
deriving DecidableEq, Repr, Inhabited

/-- Parameters of the `Transform` constructor. -/
structure TransformParams where
  m11 : Option String := none
  m12 : Option String := none
  m13 : Option String := none
  m21 : Option String := none
  m22 : Option String := none
  m23 : Option String := none
  m31 : Option String := none
  m32 : Option String := none
  m33 : Option String := none
deriving DecidableEq, Repr, Inhabited

/-- The `Transform` constructor body: `params.m11 || 1` and so on; the
numeric defaults are written as their text. -/
def Transform.make (p : TransformParams) : Transform :=
  { m11 := jsOrD p.m11 "1", m12 := jsOrD p.m12 "0", m13 := jsOrD p.m13 "0",
    m21 := jsOrD p.m21 "0", m22 := jsOrD p.m22 "1", m23 := jsOrD p.m23 "0",
    m31 := jsOrD p.m31 "0", m32 := jsOrD p.m32 "0", m33 := jsOrD p.m33 "1" }

/-- `TransformGeometry` constructor: position plus optional matrix. -/
structure TransformGeometry where
  x : Option String
  y : Option String
  z : Option String
  transform : Option Transform
deriving DecidableEq, Repr, Inhabited

/-- `WireGeometry` fields: endpoints offset from the base position;
`x1`/`y1` are defaulted with `|| 0`. -/
structure WireGeometry where
  x : Option String
  y : Option String
  z : Option String
  x1 : String
  y1 : String
  x2 : Option String
  y2 : Option String
  wireFlags : Option String
deriving DecidableEq, Repr, Inhabited

/-- Parameters of the `WireGeometry` constructor. -/
structure WireGeometryParams where
  x : Option String := none
  y : Option String := none
  z : Option String := none
  x1 : Option String := none
  y1 : Option String := none
  x2 : Option String := none
  y2 : Option String := none
  wireFlags : Option String := none
deriving DecidableEq, Repr, Inhabited

/-- The `WireGeometry` constructor body. -/
def WireGeometry.make (p : WireGeometryParams) : WireGeometry :=
  { x := p.x, y := p.y, z := p.z,
    x1 := jsOrD p.x1 "0", y1 := jsOrD p.y1 "0",
    x2 := p.x2, y2 := p.y2, wireFlags := p.wireFlags }

/-- `TitleGeometry` fields. -/
structure TitleGeometry where
  x : Option String
  y : Option String
  z : Option String
  visible : Bool
  offsetX : Option String
  offsetY : Option String
  textColor : Option String
  fontSize : Option String
  visibleProperties : List (Option String)
deriving DecidableEq, Repr, Inhabited

/-- Parameters of the `TitleGeometry` constructor. -/
structure TitleGeometryParams where
  x : Option String := none
  y : Option String := none
  z : Option String := none
  visible : Bool := false
  offsetX : Option String := none
  offsetY : Option String := none
  textColor : Option String := none
  fontSize : Option String := none
  visibleProperties : List (Option String) := []
deriving DecidableEq, Repr, Inhabited

/-- The `TitleGeometry` constructor body: note `params.visible || true`,
which is `true` for every boolean parameter; an array parameter is always
truthy, so `params.visibleProperties || []` is the parameter itself. -/
def TitleGeometry.make (p : TitleGeometryParams) : TitleGeometry :=
  { x := p.x, y := p.y, z := p.z,
    visible := p.visible || true,
    offsetX := p.offsetX, offsetY := p.offsetY,
    textColor := p.textColor, fontSize := p.fontSize,
    visibleProperties := p.visibleProperties }

/-- `InstanceConnectorReference` constructor (positional). -/
structure InstanceConnectorReference where
  id : Option String
  modelIndex : Option String
  layer : Option String
deriving DecidableEq, Repr, Inhabited

/-- `InstanceConnector` fields. -/
structure InstanceConnector where
  id : Option String
  layer : Option String
  geometry : Geometry
  leg : List PointBezierPair
  connectsTo : List InstanceConnectorReference
deriving DecidableEq, Repr, Inhabited

/-- Parameters of the `InstanceConnector` constructor. -/
structure InstanceConnectorParams where
  id : Option String := none
  layer : Option String := none
  geometry : Geometry := ⟨none, none, none⟩
  leg : List PointBezierPair := []
  connectsTo : List InstanceConnectorReference := []
deriving DecidableEq, Repr, Inhabited

/-- The `InstanceConnector` constructor body (`leg`/`connectsTo` default
through `|| []`, which on a list parameter is the parameter itself). -/
def InstanceConnector.make (p : InstanceConnectorParams) : InstanceConnector :=
  { id := p.id, layer := p.layer, geometry := p.geometry,
    leg := p.leg, connectsTo := p.connectsTo }

/-- The geometry carried by an instance view: the source stores either a
`TransformGeometry` or a `WireGeometry` object in the same field; the
embedding renders the two classes as a tagged union. -/
inductive InstGeometry where
  | trans (g : TransformGeometry)
  | wire (g : WireGeometry)
deriving DecidableEq, Repr, Inhabited

/-- Whether the stored geometry object is a `WireGeometry`. -/
def InstGeometry.isWire : InstGeometry → Bool
  | .wire _ => true
  | .trans _ => false

/-- Property accesses the serializer performs on the stored geometry
object; a field that does not exist on the stored class reads as
`undefined`. -/
def InstGeometry.gx : InstGeometry → Option String
  | .trans g => g.x
  | .wire g => g.x

/-- See `InstGeometry.gx`. -/
def InstGeometry.gy : InstGeometry → Option String
  | .trans g => g.y
  | .wire g => g.y

/-- See `InstGeometry.gx`. -/
def InstGeometry.gz : InstGeometry → Option String
  | .trans g => g.z
  | .wire g => g.z

/-- `geometry.x1`: present only on a `WireGeometry`. -/
def InstGeometry.gx1 : InstGeometry → Option String
  | .trans _ => none
  | .wire g => some g.x1

/-- `geometry.y1`: present only on a `WireGeometry`. -/
def InstGeometry.gy1 : InstGeometry → Option String
  | .trans _ => none
  | .wire g => some g.y1

/-- `geometry.x2`: present only on a `WireGeometry`. -/
def InstGeometry.gx2 : InstGeometry → Option String
  | .trans _ => none
  | .wire g => g.x2

/-- `geometry.y2`: present only on a `WireGeometry`. -/
def InstGeometry.gy2 : InstGeometry → Option String
  | .trans _ => none
  | .wire g => g.y2

/-- `geometry.wireFlags`: present only on a `WireGeometry`. -/
def InstGeometry.gwireFlags : InstGeometry → Option String
  | .trans _ => none
  | .wire g => g.wireFlags

/-- `geometry.transform`: present only on a `TransformGeometry`. -/
def InstGeometry.gtransform : InstGeometry → Option Transform
  | .trans g => g.transform
  | .wire _ => none

/-- `WireExtras` fields. -/
structure WireExtras where
  mils : Option String
  color : Option String
  opacity : Option String
  banded : Bool
  bezier : Option Bezier
deriving DecidableEq, Repr, Inhabited

/-- Parameters of the `WireExtras` constructor. -/
structure WireExtrasParams where
  mils : Option String := none
  color : Option String := none
  opacity : Option String := none
  banded : Bool := false
  bezier : Option Bezier := none
deriving DecidableEq, Repr, Inhabited

/-- The `WireExtras` constructor body. -/
def WireExtras.make (p : WireExtrasParams) : WireExtras :=
  { mils := p.mils, color := p.color, opacity := p.opacity,
    banded := p.banded || false, bezier := p.bezier }

/-- `LocalConnector` constructor (positional). -/
structure LocalConnector where
  id : Option String
  name : Option String
deriving DecidableEq, Repr, Inhabited

/-- The view settings of an `Instance`.  `wireExtras` is `some` exactly
when the object was constructed as a `WireInstanceViewSettings` (whose
constructor is the only place the field is assigned); the embedding uses
that presence for the serializer's `instanceof WireInstanceViewSettings`
test.  A wire settings object constructed without its `wireExtras` makes
the source serializer throw on `undefined.mils` and is outside the
modelled state space. -/
structure InstanceViewSettings where
  name : String
  layer : Option String
  geometry : InstGeometry
  titleGeometry : Option TitleGeometry
  connectors : List InstanceConnector
  bottom : Bool
  locked : Bool
  layerHidden : JsLoose
  wireExtras : Option WireExtras
deriving DecidableEq, Repr, Inhabited

/-- Parameters of the `InstanceViewSettings` constructor. -/
structure InstanceViewParams where
  name : String
  layer : Option String := none
  geometry : InstGeometry
  titleGeometry : Option TitleGeometry := none
  connectors : List InstanceConnector := []
  bottom : Bool := false
  locked : Bool := false
  layerHidden : JsLoose := .undefined
deriving DecidableEq, Repr, Inhabited

/-- The `InstanceViewSettings` constructor body: `bottom`/`locked` default
through `|| false`, `layerHidden` keeps its loose value or becomes
`false`. -/
def InstanceViewSettings.make (p : InstanceViewParams) : InstanceViewSettings :=
  { name := p.name, layer := p.layer, geometry := p.geometry,
    titleGeometry := p.titleGeometry, connectors := p.connectors,
    bottom := p.bottom || false, locked := p.locked || false,
    layerHidden := jsOr p.layerHidden (.bool false), wireExtras := none }

/-- Parameters of the `WireInstanceViewSettings` constructor. -/
structure WireInstanceViewParams extends InstanceViewParams where
  wireExtras : Option WireExtras := none
deriving DecidableEq, Repr, Inhabited

/-- The `WireInstanceViewSettings` constructor body:
`InstanceViewSettings.call(this, params)` followed by
`this.wireExtras = params.wireExtras`. -/
def WireInstanceViewSettings.make (p : WireInstanceViewParams) :
    InstanceViewSettings :=
  { InstanceViewSettings.make p.toInstanceViewParams with
    wireExtras := p.wireExtras }

/-- `Instance` fields. -/
structure Instance where
  moduleIdRef : Option String
  modelIndex : Option String
  path : Option String
  properties : List Property
  title : Option String
  viewSettings : List InstanceViewSettings
  text : Option String
  flippedSMD : Bool
  localConnectors : List LocalConnector
deriving DecidableEq, Repr, Inhabited

/-- Parameters of the `Instance` constructor. -/
structure InstanceParams where
  moduleIdRef : Option String := none
  modelIndex : Option String := none
  path : Option String := none
  properties : List Property := []
  title : Option String := none
  viewSettings : List InstanceViewSettings := []
  text : Option String := none
  flippedSMD : Bool := false
  localConnectors : List LocalConnector := []
deriving DecidableEq, Repr, Inhabited

/-- The `Instance` constructor body. -/
def Instance.make (p : InstanceParams) : Instance :=
  { moduleIdRef := p.moduleIdRef, modelIndex := p.modelIndex, path := p.path,
    properties := p.properties, title := p.title,
    viewSettings := p.viewSettings, text := p.text,
    flippedSMD := p.flippedSMD || false,
    localConnectors := p.localConnectors }

/-- `Program` constructor (positional). -/
structure Program where
  pid : Option String
  language : Option String
  author : Option String
  path : Option String
deriving DecidableEq, Repr, Inhabited

/-- `Board` fields; the source field `instance` is a Lean keyword and is
rendered `instanceName` here. -/
structure Board where
  moduleId : Option String
  title : Option String
  instanceName : Option String
  width : Option String
  height : Option String
deriving DecidableEq, Repr, Inhabited

/-- Parameters of the `Board` constructor (which copies them verbatim). -/
structure BoardParams where
  moduleId : Option String := none
  title : Option String := none
  instanceName : Option String := none
  width : Option String := none
  height : Option String := none
deriving DecidableEq, Repr, Inhabited

/-- The `Board` constructor body. -/
def Board.make (p : BoardParams) : Board :=
  { moduleId := p.moduleId, title := p.title,
    instanceName := p.instanceName,
    width := p.width, height := p.height }

/-- The autorouting fields that `SketchPCBViewSettings` adds. -/
structure PCBExtras where
  arHoleSize : Option String
  arTraceWidth : Option String
  arRingWidth : Option String
  keepoutDRC : Option String
  keepoutGPG : Option String
deriving DecidableEq, Repr, Inhabited

/-- Sketch-level view settings; `pcb` is `some` exactly when the object
was constructed as a `SketchPCBViewSettings`, which is what the
serializer's `instanceof SketchPCBViewSettings` test observes. -/
structure SketchViewSettings where
  name : String
  backgroundColor : Option String
  gridSize : Option String
  showGrid : Bool
  alignToGrid : Bool
  viewFromBelow : Bool
  pcb : Option PCBExtras
deriving DecidableEq, Repr, Inhabited

/-- Parameters of the `SketchViewSettings` / `SketchPCBViewSettings`
constructors. -/
structure SketchViewParams where
  name : String
  backgroundColor : Option String := none
  gridSize : Option String := none
  showGrid : Bool := false
  alignToGrid : Bool := false
  viewFromBelow : Bool := false
  arHoleSize : Option String := none
  arTraceWidth : Option String := none
  arRingWidth : Option String := none
  keepoutDRC : Option String := none
  keepoutGPG : Option String := none
deriving DecidableEq, Repr, Inhabited

/-- The `SketchViewSettings` constructor body
(`src/lib/fritzing/bundle.js` lines 1194-1201): note
`params.showGrid || true`, which is `true` for every boolean parameter. -/
def SketchViewSettings.make (p : SketchViewParams) : SketchViewSettings :=
  { name := p.name, backgroundColor := p.backgroundColor,
    gridSize := p.gridSize,
    showGrid := p.showGrid || true,
    alignToGrid := p.alignToGrid || false,
    viewFromBelow := p.viewFromBelow || false,
    pcb := none }

/-- The `SketchPCBViewSettings` constructor body:
`SketchViewSettings.call(this, params)` plus the autorouting fields. -/
def SketchPCBViewSettings.make (p : SketchViewParams) : SketchViewSettings :=
  { SketchViewSettings.make p with
    pcb := some ⟨p.arHoleSize, p.arTraceWidth, p.arRingWidth,
                 p.keepoutDRC, p.keepoutGPG⟩ }

/-- `Sketch` fields. -/
structure Sketch where
  fritzingVersion : Option String
  programs : List Program
  boards : List Board
  viewSettings : List SketchViewSettings
  instances : List Instance
deriving DecidableEq, Repr, Inhabited

/-- Parameters of the `Sketch` constructor. -/
structure SketchParams where
  fritzingVersion : Option String := none
  programs : List Program := []
  boards : List Board := []
  viewSettings : List SketchViewSettings := []
  instances : List Instance := []
deriving DecidableEq, Repr, Inhabited

/-- The `Sketch` constructor body (the `|| []` defaults on list parameters
are the parameters themselves). -/
def Sketch.make (p : SketchParams) : Sketch :=
  { fritzingVersion := p.fritzingVersion, programs := p.programs,
    boards := p.boards, viewSettings := p.viewSettings,
    instances := p.instances }

/-! ## Sketch serializer (`Sketch.prototype.toFZ`, lines 1519-1871) -/

/-- The board element (lines 1556-1567). -/
def serializeBoard (b : Board) : BVal :=
  .vnode [("moduleId", optA b.moduleId), ("title", optA b.title),
          ("instance", optA b.instanceName), ("width", optA b.width),
          ("height", optA b.height)] none []

/-- The program element (lines 1579-1588): note the author is written
under the attribute name `programmer`, and the path is the element
text. -/
def serializeProgram (pr : Program) : BVal :=
  .vnode [("language", optA pr.language), ("programmer", optA pr.author)]
    pr.path []

/-- The sketch view element (lines 1593-1612): `showGrid`, `alignToGrid`
and `viewFromBelow` are written as the numbers `1`/`0`
(`(viewSetting.showGrid) ? 1 : 0`), the optional attributes through
`setOptionalValue`, and the autorouting attributes only when the object
is a `SketchPCBViewSettings`. -/
def sketchViewAttrs (vs : SketchViewSettings) : List (String × BAttrV) :=
  let attrs := [("name", BAttrV.s (appendViewSuffix vs.name)),
                ("showGrid", BAttrV.n (if vs.showGrid then 1 else 0)),
                ("alignToGrid", BAttrV.n (if vs.alignToGrid then 1 else 0)),
                ("viewFromBelow", BAttrV.n (if vs.viewFromBelow then 1 else 0))]
  let attrs := setOptionalAttr attrs "backgroundColor" vs.backgroundColor
  let attrs := setOptionalAttr attrs "gridSize" vs.gridSize
  match vs.pcb with
  | some e =>
      let a := setOptionalAttr attrs "autorouteViaHoleSize" e.arHoleSize
      let a := setOptionalAttr a "autorouteTraceWidth" e.arTraceWidth
      let a := setOptionalAttr a "autorouteViaRingThickness" e.arRingWidth
      let a := setOptionalAttr a "DRC_Keepout" e.keepoutDRC
      setOptionalAttr a "GPG_Keepout" e.keepoutGPG
  | none => attrs

/-- See `sketchViewAttrs` for the attribute list. -/
def serializeSketchView (vs : SketchViewSettings) : BVal :=
  .vnode (sketchViewAttrs vs) none []

/-- The bezier element built in the leg loop (lines 1742-1755) and for
`wireExtras.bezier` (lines 1806-1819): both sites build this same
two-control-point literal. -/
def bezierBNode (bz : Bezier) : BVal :=
  .vnode [] none
    [("cp0", [.vnode [("x", optA bz.cp0.x), ("y", optA bz.cp0.y)] none []]),
     ("cp1", [.vnode [("x", optA bz.cp1.x), ("y", optA bz.cp1.y)] none []])]

/-- The leg loop (lines 1729-1759): for every pair one point element is
pushed, and one bezier entry — the bezier element when the pair has one,
the empty-string placeholder `''` otherwise. -/
def serializeLeg : List PointBezierPair → List BVal × List BVal
  | [] => ([], [])
  | pair :: rest =>
      let tail := serializeLeg rest
      let pnode := BVal.vnode
        [("x", optA pair.point.x), ("y", optA pair.point.y)] none []
      let bnode := match pair.bezier with
        | some bz => bezierBNode bz
        | none => BVal.vstr ""
      (pnode :: tail.1, bnode :: tail.2)

/-- The leg element (`moduleConnector.leg = { point: [], bezier: [] }`,
lines 1722-1728, filled by the loop). -/
def serializeLegNode (leg : List PointBezierPair) : BVal :=
  .vnode [] none
    [("point", (serializeLeg leg).1), ("bezier", (serializeLeg leg).2)]

/-- The instance connector element (lines 1701-1776): id and layer as
attributes, a two-coordinate geometry child, the `connects` child with one
`connect` element per reference, and the leg child only when the leg is
nonempty. -/
def serializeInstanceConnector (c : InstanceConnector) : BVal :=
  let kids : List (String × List BVal) :=
    [("geometry",
      [.vnode [("x", optA c.geometry.x), ("y", optA c.geometry.y)] none []]),
     ("connects",
      [.vnode [] none
        [("connect", c.connectsTo.map fun ct =>
          BVal.vnode [("connectorId", optA ct.id),
                      ("modelIndex", optA ct.modelIndex),
                      ("layer", optA ct.layer)] none [])]])]
  let kids := if c.leg.length > 0 then
      kids ++ [("leg", [serializeLegNode c.leg])]
    else kids
  .vnode [("connectorId", optA c.id), ("layer", optA c.layer)] none kids

/-- The instance view element (lines 1651-1847): `locked` and `bottom` are
written as raw booleans (attribute text `true`/`false`); the
`titleGeometry` object is built by the source (lines 1669-1693) but never
attached to the view, so nothing of it — including `visible` — is
emitted; the geometry and `wireExtras` children depend on the
`instanceof WireInstanceViewSettings` test; `banded` is written as the
number `1`/`0`. -/
def serializeInstanceView (vs : InstanceViewSettings) : BVal :=
  let attrs := [("layer", optA vs.layer), ("locked", BAttrV.b vs.locked),
                ("bottom", BAttrV.b vs.bottom)]
  let kids : List (String × List BVal) := []
  let kids := if vs.layerHidden.truthy then
      kids ++ [("layerHidden",
        [BVal.vnode [("layer", looseA vs.layerHidden)] none []])]
    else kids
  let kids := if vs.connectors.length > 0 then
      kids ++ [("connectors",
        [BVal.vnode [] none
          [("connector", vs.connectors.map serializeInstanceConnector)]])]
    else kids
  let kids := match vs.wireExtras with
    | some we =>
        let kids := kids ++ [("geometry",
          [BVal.vnode [("x", optA vs.geometry.gx), ("y", optA vs.geometry.gy),
                       ("z", optA vs.geometry.gz),
                       ("x1", optA vs.geometry.gx1), ("y1", optA vs.geometry.gy1),
                       ("x2", optA vs.geometry.gx2), ("y2", optA vs.geometry.gy2),
                       ("wireFlags", optA vs.geometry.gwireFlags)] none []])]
        let weKids := match we.bezier with
          | some bz => [("bezier", [bezierBNode bz])]
          | none => ([] : List (String × List BVal))
        kids ++ [("wireExtras",
          [BVal.vnode [("mils", optA we.mils), ("color", optA we.color),
                       ("opacity", optA we.opacity),
                       ("banded", BAttrV.n (if we.banded then 1 else 0))]
            none weKids])]
    | none =>
        let gKids := match vs.geometry.gtransform with
          | some t => [("transform",
              [BVal.vnode [("m11", BAttrV.s t.m11), ("m12", BAttrV.s t.m12),
                           ("m13", BAttrV.s t.m13), ("m21", BAttrV.s t.m21),
                           ("m22", BAttrV.s t.m22), ("m23", BAttrV.s t.m23),
                           ("m31", BAttrV.s t.m31), ("m32", BAttrV.s t.m32),
                           ("m33", BAttrV.s t.m33)] none []])]
          | none => ([] : List (String × List BVal))
        kids ++ [("geometry",
          [BVal.vnode [("x", optA vs.geometry.gx), ("y", optA vs.geometry.gy),
                       ("z", optA vs.geometry.gz)] none gKids])]
  .vnode attrs none kids

/-- The instance element (lines 1617-1866): identity attributes plus the
raw boolean `flippedSMD`, the per-view children keyed by
`name + 'View'`, the optional title/text children, the property elements
(whose value goes through `setOptionalValue` at a child position — the
key `value` lands on the property element itself, giving a `value` child
element), and the local connectors. -/
def serializeInstance (inst : Instance) : BVal :=
  let attrs := [("moduleIdRef", optA inst.moduleIdRef),
                ("modelIndex", optA inst.modelIndex),
                ("path", optA inst.path),
                ("flippedSMD", BAttrV.b inst.flippedSMD)]
  let kids : List (String × List BVal) :=
    [("views",
      [.vnode [] none (inst.viewSettings.map fun v =>
        (appendViewSuffix v.name, [serializeInstanceView v]))])]
  let kids := setOptionalKid kids "title" inst.title
  let kids := setOptionalKid kids "text" inst.text
  let kids := if inst.properties.length > 0 then
      kids ++ [("properties",
        [BVal.vnode [] none
          [("property", inst.properties.map fun pr =>
            BVal.vnode [("name", optA pr.name)] none
              (setOptionalKid [] "value" pr.value))]])]
    else kids
  let kids := if inst.localConnectors.length > 0 then
      kids ++ [("localConnectors",
        [BVal.vnode [] none
          [("localConnector", inst.localConnectors.map fun lc =>
            BVal.vnode [("id", optA lc.id), ("name", optA lc.name)] none [])]])]
    else kids
  .vnode attrs none kids

/-- `Sketch.prototype.toFZ`: the root `module` object with its
`fritzingVersion` attribute, the always-present `views`/`instances`
containers, and the `boards`/`programs` containers only when nonempty
(the `pid` attribute is read off the first program). -/
def Sketch.toFZ (s : Sketch) : BVal :=
  let kids : List (String × List BVal) :=
    [("views", [.vnode [] none [("view", s.viewSettings.map serializeSketchView)]]),
     ("instances", [.vnode [] none [("instance", s.instances.map serializeInstance)]])]
  let kids := if s.boards.length > 0 then
      kids ++ [("boards", [.vnode [] none [("board", s.boards.map serializeBoard)]])]
    else kids
  let kids := match s.programs with
    | [] => kids
    | p0 :: _ =>
        kids ++ [("programs",
          [.vnode [("pid", optA p0.pid)] none
            [("program", s.programs.map serializeProgram)]])]
  .vnode [("fritzingVersion", optA s.fritzingVersion)] none kids

/-! ## Sketch parser (`Sketch.fromFZ`, lines 1889-2219)

The parse loops are sequential, so the first thrown `TypeError` (an
unguarded dereference of `undefined`) rejects the whole parse, as in the
source.  `Object.keys` on a parsed node yields its child names (on the
empty-element marker, which is a string, it yields nothing); an attribute
map or text key on such a node would additionally surface as `$`/`_`
keys in JavaScript — no input the claims touch has them on a key-iterated
node. -/

/-- `object[0]` on a name-keyed child array followed by a required
dereference, e.g. `module.views[0]`: `TypeError` when the key is absent. -/
def jsChild0 (v : XVal) (k : String) : Except JsErr XVal :=
  match xChild v k with
  | some l => jsElem0 l
  | none => .error .typeError

/-- `Object.keys` over a parsed node: child names in first-occurrence
order; nothing on the empty-element marker. -/
def xKeys : XVal → List String
  | .emptyStr => []
  | .node _ _ kids => kids.map Prod.fst

/-- The boards block (lines 1923-1938), guarded by
`module.boards && module.boards[0].board`. -/
def parseBoards (m : XVal) : Except JsErr (List Board) :=
  match xChild m "boards" with
  | none => .ok []
  | some [] => .error .typeError
  | some (b0 :: _) =>
      match xChild b0 "board" with
      | none => .ok []
      | some mbs => mbs.mapM fun mb => do
          let a ← xDollar mb
          pure (Board.make
            { moduleId := a.lookup "moduleId", title := a.lookup "title",
              instanceName := a.lookup "instance", width := a.lookup "width",
              height := a.lookup "height" })

/-- The programs block (lines 1940-1953): the shared `pid` is read off
the container, the author off the `programmer` attribute, the path off
the element text. -/
def parsePrograms (m : XVal) : Except JsErr (List Program) :=
  match xChild m "programs" with
  | none => .ok []
  | some [] => .error .typeError
  | some (p0 :: _) =>
      match xChild p0 "program" with
      | none => .ok []
      | some mps => do
          let pa ← xDollar p0
          let pid := pa.lookup "pid"
          mps.mapM fun mp => do
            let a ← xDollar mp
            pure (Program.mk pid (a.lookup "language")
              (a.lookup "programmer") (xText mp))

/-- The `viewSettingsParams` object built for one sketch view element
(lines 1958-1967): the bare view name comes from `$.name.slice(0, -4)`
(a `TypeError` when the attribute is missing), and each boolean is the
comparison of its attribute against the literal `'1'`. -/
def viewSettingsParams (v : XVal) : Except JsErr SketchViewParams := do
  let attrs ← xDollar v
  match attrs.lookup "name" with
  | none => .error .typeError
  | some nm =>
      .ok { name := stripViewSuffix nm,
            backgroundColor := getOptAttr v "backgroundColor",
            gridSize := getOptAttr v "gridSize",
            showGrid := getOptAttr v "showGrid" == some "1",
            alignToGrid := getOptAttr v "alignToGrid" == some "1",
            viewFromBelow := getOptAttr v "viewFromBelow" == some "1" }

/-- One sketch view element (lines 1957-1978): the PCB variant is chosen
purely because the bare view name equals `'pcb'`. -/
def parseSketchView (v : XVal) : Except JsErr SketchViewSettings := do
  let p ← viewSettingsParams v
  if p.name == "pcb" then
    .ok (SketchPCBViewSettings.make
      { p with
        arHoleSize := getOptAttr v "autorouteViaHoleSize",
        arTraceWidth := getOptAttr v "autorouteTraceWidth",
        arRingWidth := getOptAttr v "autorouteViaRingThickness",
        keepoutDRC := getOptAttr v "DRC_Keepout",
        keepoutGPG := getOptAttr v "GPG_Keepout" })
  else .ok (SketchViewSettings.make p)

/-- `module.views[0].view` (line 1956) followed by the view loop. -/
def parseSketchViews (m : XVal) : Except JsErr (List SketchViewSettings) := do
  let v0 ← jsChild0 m "views"
  match xChild v0 "view" with
  | none => .error .typeError
  | some moduleViews => moduleViews.mapM parseSketchView

/-- A two-control-point bezier element (`moduleBezier.cp0[0]` /
`.cp1[0]`, their `$.x`/`$.y`). -/
def parseBezierXml (b : XVal) : Except JsErr Bezier := do
  let c0 ← jsChild0 b "cp0"
  let c1 ← jsChild0 b "cp1"
  let a0 ← xDollar c0
  let a1 ← xDollar c1
  .ok ⟨⟨a0.lookup "x", a0.lookup "y"⟩, ⟨a1.lookup "x", a1.lookup "y"⟩⟩

/-- The leg re-pairing loop (lines 2042-2060): iterate over the point
array by index, reading the bezier array at the same index; the slot
gives a Bezier exactly when it is not the empty-string placeholder.  A
missing bezier array, or one shorter than the point array, makes the
source dereference `undefined` (`moduleLeg.bezier[d]` or
`moduleBezier.cp0`) and throw. -/
def parseLegPairs : List XVal → Option (List XVal) →
    Except JsErr (List PointBezierPair)
  | [], _ => .ok []
  | _ :: _, none => .error .typeError
  | _ :: _, some [] => .error .typeError
  | p :: ps, some (b :: brest) =>
      match b with
      | .emptyStr => do
          let pa ← xDollar p
          let rest ← parseLegPairs ps (some brest)
          .ok (PointBezierPair.mk ⟨pa.lookup "x", pa.lookup "y"⟩ none :: rest)
      | _ => do
          let pa ← xDollar p
          let bez ← parseBezierXml b
          let rest ← parseLegPairs ps (some brest)
          .ok (PointBezierPair.mk ⟨pa.lookup "x", pa.lookup "y"⟩
            (some bez) :: rest)

/-- The leg block (lines 2039-2061), guarded by `moduleConnector.leg`. -/
def parseLeg (legChild : Option (List XVal)) :
    Except JsErr (List PointBezierPair) :=
  match legChild with
  | none => .ok []
  | some l => do
      let ml ← jsElem0 l
      match xChild ml "point" with
      | none => .error .typeError
      | some pts => parseLegPairs pts (xChild ml "bezier")

/-- The `connects` block (lines 2063-2074), guarded by
`moduleConnector.connects && moduleConnector.connects[0].connect`. -/
def parseConnects (mc : XVal) :
    Except JsErr (List InstanceConnectorReference) :=
  match xChild mc "connects" with
  | none => .ok []
  | some [] => .error .typeError
  | some (c0 :: _) =>
      match xChild c0 "connect" with
      | none => .ok []
      | some conns => conns.mapM fun cn => do
          let a ← xDollar cn
          pure (InstanceConnectorReference.mk (a.lookup "connectorId")
            (a.lookup "modelIndex") (a.lookup "layer"))

/-- One instance connector element (lines 2036-2087): leg, references,
then the required geometry child whose `$.x`/`$.y` build a `Geometry`
with no `z`. -/
def parseInstanceConnector (mc : XVal) : Except JsErr InstanceConnector := do
  let leg ← parseLeg (xChild mc "leg")
  let connectsTo ← parseConnects mc
  let mg ← jsChild0 mc "geometry"
  let ga ← xDollar mg
  let ca ← xDollar mc
  .ok (InstanceConnector.make
    { id := ca.lookup "connectorId", layer := ca.lookup "layer",
      geometry := ⟨ga.lookup "x", ga.lookup "y", none⟩,
      leg := leg, connectsTo := connectsTo })

/-- The object literal passed to the `TitleGeometry` constructor by the
titleGeometry block (lines 2004-2026): the display keys are read from a
`key` attribute on each `displayKey` child (an unguarded `$`
dereference), `visible` is the comparison of its attribute against the
literal `'true'`, and the offsets come from `xOffset`/`yOffset`. -/
def titleGeometryParams (mtg : XVal) : Except JsErr TitleGeometryParams := do
  let visibleProperties ← match xChild mtg "displayKey" with
    | none => pure ([] : List (Option String))
    | some dks => dks.mapM fun dk => do
        let a ← xDollar dk
        pure (a.lookup "key")
  let a ← xDollar mtg
  .ok { x := a.lookup "x", y := a.lookup "y", z := a.lookup "z",
        visible := a.lookup "visible" == some "true",
        offsetX := a.lookup "xOffset", offsetY := a.lookup "yOffset",
        textColor := a.lookup "textColor", fontSize := a.lookup "fontSize",
        visibleProperties := visibleProperties }

/-- The titleGeometry block: the constructor applied to the parsed
parameters. -/
def parseTitleGeometry (mtg : XVal) : Except JsErr TitleGeometry := do
  let p ← titleGeometryParams mtg
  .ok (TitleGeometry.make p)

/-- The transform block (lines 2146-2162), guarded by
`moduleGeometry.transform`. -/
def parseTransform (mg : XVal) : Except JsErr (Option Transform) :=
  match xChild mg "transform" with
  | none => .ok none
  | some l => do
      let mt ← jsElem0 l
      let a ← xDollar mt
      .ok (some (Transform.make
        { m11 := a.lookup "m11", m12 := a.lookup "m12", m13 := a.lookup "m13",
          m21 := a.lookup "m21", m22 := a.lookup "m22", m23 := a.lookup "m23",
          m31 := a.lookup "m31", m32 := a.lookup "m32", m33 := a.lookup "m33" }))

/-- The titleGeometry guard of the instance view loop (lines 2001-2026):
`undefined` unless the view has a `titleGeometry` child. -/
def parseTitleGeometryOpt (v : XVal) : Except JsErr (Option TitleGeometry) :=
  match xChild v "titleGeometry" with
  | none => .ok none
  | some l => do
      let mtg ← jsElem0 l
      let tg ← parseTitleGeometry mtg
      .ok (some tg)

/-- The layerHidden block (lines 2028-2031): the `layer` attribute of the
`layerHidden` child when present, else `undefined` (the constructor then
defaults it to `false`). -/
def parseLayerHidden (v : XVal) : Except JsErr JsLoose :=
  match xChild v "layerHidden" with
  | none => .ok .undefined
  | some l => do
      let lh ← jsElem0 l
      let a ← xDollar lh
      .ok (match a.lookup "layer" with
        | some s => JsLoose.str s
        | none => JsLoose.undefined)

/-- The connectors block of the instance view loop (lines 2033-2088),
guarded by `moduleView.connectors && moduleView.connectors[0].connector`. -/
def parseViewConnectors (v : XVal) : Except JsErr (List InstanceConnector) :=
  match xChild v "connectors" with
  | none => .ok []
  | some [] => .error .typeError
  | some (c0 :: _) =>
      match xChild c0 "connector" with
      | none => .ok []
      | some mcs => mcs.mapM parseInstanceConnector

/-- The wireExtras bezier block (lines 2111-2120), guarded by
`moduleWireExtras.bezier`. -/
def parseWireBezier (mwe : XVal) : Except JsErr (Option Bezier) :=
  match xChild mwe "bezier" with
  | none => .ok none
  | some bls => do
      let mb ← jsElem0 bls
      let bz ← parseBezierXml mb
      .ok (some bz)

/-- One instance view element (lines 2000-2178): after the optional
titleGeometry, layerHidden and connectors blocks and the required
geometry child, the presence of a `wireExtras` child is the sole test
(line 2096) deciding between the wire construction (a `WireGeometry`
from `x1`/`y1`/`x2`/`y2`/`wireFlags` plus a `WireExtras` record, `banded`
compared against `'1'`) and the plain construction (a
`TransformGeometry`); `bottom` and `locked` are compared against the
literal `'true'` in both. -/
def parseInstanceView (key : String) (v : XVal) :
    Except JsErr InstanceViewSettings := do
  let titleGeometry ← parseTitleGeometryOpt v
  let layerHidden ← parseLayerHidden v
  let connectors ← parseViewConnectors v
  let mg ← jsChild0 v "geometry"
  let ga ← xDollar mg
  match xChild v "wireExtras" with
  | some wl => do
      let geometry := WireGeometry.make
        { x := ga.lookup "x", y := ga.lookup "y", z := ga.lookup "z",
          x1 := ga.lookup "x1", y1 := ga.lookup "y1",
          x2 := ga.lookup "x2", y2 := ga.lookup "y2",
          wireFlags := ga.lookup "wireFlags" }
      let mwe ← jsElem0 wl
      let bezier ← parseWireBezier mwe
      let wa ← xDollar mwe
      let wireExtras := WireExtras.make
        { mils := wa.lookup "mils", color := wa.lookup "color",
          opacity := wa.lookup "opacity",
          banded := wa.lookup "banded" == some "1", bezier := bezier }
      let va ← xDollar v
      .ok (WireInstanceViewSettings.make
        { name := stripViewSuffix key, layer := va.lookup "layer",
          geometry := .wire geometry, titleGeometry := titleGeometry,
          connectors := connectors,
          bottom := va.lookup "bottom" == some "true",
          locked := getOptAttr v "locked" == some "true",
          layerHidden := layerHidden, wireExtras := some wireExtras })
  | none => do
      let transform ← parseTransform mg
      let geometry := TransformGeometry.mk (ga.lookup "x") (ga.lookup "y")
        (ga.lookup "z") transform
      let va ← xDollar v
      .ok (InstanceViewSettings.make
        { name := stripViewSuffix key, layer := va.lookup "layer",
          geometry := .trans geometry, titleGeometry := titleGeometry,
          connectors := connectors,
          bottom := va.lookup "bottom" == some "true",
          locked := getOptAttr v "locked" == some "true",
          layerHidden := layerHidden })

/-- One instance element (lines 1983-2205): properties (values read from
a `value` attribute), the per-view loop over `Object.keys` of the
required `views` child, local connectors, then the `Instance`
construction with `flippedSMD` compared against `'true'`. -/
def parseInstance (mi : XVal) : Except JsErr Instance := do
  let properties ← match xChild mi "properties" with
    | none => pure ([] : List Property)
    | some [] => .error .typeError
    | some (p0 :: _) =>
        match xChild p0 "property" with
        | none => pure []
        | some mps => mps.mapM fun mp => do
            let a ← xDollar mp
            pure (Property.mk (a.lookup "name") (a.lookup "value"))
  let mviews ← jsChild0 mi "views"
  let viewSettings ← (xKeys mviews).mapM fun key => do
      match xChild mviews key with
      | some (v :: _) => parseInstanceView key v
      | _ => .error .typeError
  let localConnectors ← match xChild mi "localConnectors" with
    | none => pure ([] : List LocalConnector)
    | some [] => .error .typeError
    | some (l0 :: _) =>
        match xChild l0 "localConnector" with
        | none => pure []
        | some mls => mls.mapM fun ml => do
            let a ← xDollar ml
            pure (LocalConnector.mk (a.lookup "id") (a.lookup "name"))
  let ia ← xDollar mi
  let title ← getOptionalValue (xChild mi "title")
  let text ← getOptionalValue (xChild mi "text")
  .ok (Instance.make
    { moduleIdRef := ia.lookup "moduleIdRef",
      modelIndex := ia.lookup "modelIndex", path := ia.lookup "path",
      properties := properties, title := title,
      viewSettings := viewSettings, text := text,
      flippedSMD := getOptAttr mi "flippedSMD" == some "true",
      localConnectors := localConnectors })

/-- `module.instances[0].instance` (line 1982) followed by the instance
loop: unlike boards and programs, this access is unguarded, so a module
without an instance element list throws. -/
def parseInstances (m : XVal) : Except JsErr (List Instance) := do
  let i0 ← jsChild0 m "instances"
  match xChild i0 "instance" with
  | none => .error .typeError
  | some mis => mis.mapM parseInstance

/-- `Sketch.fromFZ` on the parsed `module` node: boards, programs, views
and instances in source order, then the `Sketch` construction with
`module.$.fritzingVersion`. -/
def Sketch.fromFZ (m : XVal) : Except JsErr Sketch := do
  let boards ← parseBoards m
  let programs ← parsePrograms m
  let viewSettings ← parseSketchViews m
  let instances ← parseInstances m
  let ma ← xDollar m
  .ok (Sketch.make
    { fritzingVersion := ma.lookup "fritzingVersion",
      programs := programs, boards := boards,
      viewSettings := viewSettings, instances := instances })

/-! ## Part document model (`src/lib/part.js`) -/

/-- `PartProperty` constructor (positional: name, value, showInLabel with
`|| false`); parsing hands `showInLabel` the raw attribute string, so the
field is loose. -/
structure PartProperty where
  name : Option String
  value : Option String
  showInLabel : JsLoose
deriving DecidableEq, Repr, Inhabited

/-- The `PartProperty` constructor body. -/
def PartProperty.make (name value : Option String) (showInLabel : JsLoose) :
    PartProperty :=
  ⟨name, value, jsOr showInLabel (.bool false)⟩

/-- `PartLayer` constructor (positional: id, sticky with `|| false`). -/
structure PartLayer where
  id : Option String
  sticky : Bool
deriving DecidableEq, Repr, Inhabited

/-- The `PartLayer` constructor body. -/
def PartLayer.make (id : Option String) (sticky : Bool) : PartLayer :=
  ⟨id, sticky || false⟩

/-- `PartViewSettings` fields. -/
structure PartViewSettings where
  name : String
  image : Option String
  layers : List PartLayer
  flipHorizontal : Bool
  flipVertical : Bool
deriving DecidableEq, Repr, Inhabited

/-- Parameters of the `PartViewSettings` constructor. -/
structure PartViewParams where
  name : String
  image : Option String := none
  layers : List PartLayer := []
  flipHorizontal : Bool := false
  flipVertical : Bool := false
deriving DecidableEq, Repr, Inhabited

/-- The `PartViewSettings` constructor body. -/
def PartViewSettings.make (p : PartViewParams) : PartViewSettings :=
  { name := p.name, image := p.image, layers := p.layers,
    flipHorizontal := p.flipHorizontal || false,
    flipVertical := p.flipVertical || false }

/-- `Current` constructor (positional). -/
structure Current where
  flow : Option String
  valueMax : Option String
deriving DecidableEq, Repr, Inhabited

/-- `ERC` constructor (positional: type, voltage, current, ignore). -/
structure ERC where
  type : Option String
  voltage : Option String
  current : Option Current
  ignore : Option String
deriving DecidableEq, Repr, Inhabited

/-- `PartConnectorLayerSettings` fields; `disabled` is loose because the
parser hands it the raw `hybrid` attribute string. -/
structure PartConnectorLayerSettings where
  name : Option String
  svgId : Option String
  terminalId : Option String
  legId : Option String
  disabled : JsLoose
deriving DecidableEq, Repr, Inhabited

/-- Parameters of the `PartConnectorLayerSettings` constructor. -/
structure PartConnLayerParams where
  name : Option String := none
  svgId : Option String := none
  terminalId : Option String := none
  legId : Option String := none
  disabled : JsLoose := .undefined
deriving DecidableEq, Repr, Inhabited

/-- The `PartConnectorLayerSettings` constructor body. -/
def PartConnectorLayerSettings.make (p : PartConnLayerParams) :
    PartConnectorLayerSettings :=
  { name := p.name, svgId := p.svgId, terminalId := p.terminalId,
    legId := p.legId, disabled := jsOr p.disabled (.bool false) }

/-- `PartConnectorViewSettings` constructor (positional: name,
layerSettings with `|| []`). -/
structure PartConnectorViewSettings where
  name : String
  layerSettings : List PartConnectorLayerSettings
deriving DecidableEq, Repr, Inhabited

/-- `PartConnector` fields. -/
structure PartConnector where
  id : Option String
  name : Option String
  type : Option String
  description : Option String
  replacedBy : Option String
  erc : Option ERC
  viewSettings : List PartConnectorViewSettings
deriving DecidableEq, Repr, Inhabited

/-- Parameters of the `PartConnector` constructor. -/
structure PartConnectorParams where
  id : Option String := none
  name : Option String := none
  type : Option String := none
  description : Option String := none
  replacedBy : Option String := none
  erc : Option ERC := none
  viewSettings : List PartConnectorViewSettings := []
deriving DecidableEq, Repr, Inhabited

/-- The `PartConnector` constructor body. -/
def PartConnector.make (p : PartConnectorParams) : PartConnector :=
  { id := p.id, name := p.name, type := p.type,
    description := p.description, replacedBy := p.replacedBy,
    erc := p.erc, viewSettings := p.viewSettings }

/-- `Bus` constructor (positional: id, connectorIds with `|| []`). -/
structure Bus where
  id : Option String
  connectorIds : List (Option String)
deriving DecidableEq, Repr, Inhabited

/-- `Subpart` constructor (positional: id, label, connectorIds). -/
structure Subpart where
  id : Option String
  label : Option String
  connectorIds : List (Option String)
deriving DecidableEq, Repr, Inhabited

/-- `Part` fields. -/
structure Part where
  moduleId : Option String
  fritzingVersion : Option String
  referenceFile : Option String
  author : Option String
  version : Option String
  replacedBy : Option String
  title : Option String
  url : Option String
  label : Option String
  date : Option String
  description : Option String
  taxonomy : Option String
  language : Option String
  family : Option String
  variant : Option String
  defaultUnits : Option String
  ignoreTerminalPoints : Bool
  tags : List (Option String)
  properties : List PartProperty
  viewSettings : List PartViewSettings
  connectors : List PartConnector
  buses : List Bus
  subparts : List Subpart
deriving DecidableEq, Repr, Inhabited

/-- Parameters of the `Part` constructor. -/
structure PartParams where
  moduleId : Option String := none
  fritzingVersion : Option String := none
  referenceFile : Option String := none
  author : Option String := none
  version : Option String := none
  replacedBy : Option String := none
  title : Option String := none
  url : Option String := none
  label : Option String := none
  date : Option String := none
  description : Option String := none
  taxonomy : Option String := none
  language : Option String := none
  family : Option String := none
  variant : Option String := none
  defaultUnits : Option String := none
  ignoreTerminalPoints : Bool := false
  tags : List (Option String) := []
  properties : List PartProperty := []
  viewSettings : List PartViewSettings := []
  connectors : List PartConnector := []
  buses : List Bus := []
  subparts : List Subpart := []
deriving DecidableEq, Repr, Inhabited

/-- The `Part` constructor body (lines 542-566). -/
def Part.make (p : PartParams) : Part :=
  { moduleId := p.moduleId, fritzingVersion := p.fritzingVersion,
    referenceFile := p.referenceFile, author := p.author,
    version := p.version, replacedBy := p.replacedBy, title := p.title,
    url := p.url, label := p.label, date := p.date,
    description := p.description, taxonomy := p.taxonomy,
    language := p.language, family := p.family, variant := p.variant,
    defaultUnits := p.defaultUnits,
    ignoreTerminalPoints := p.ignoreTerminalPoints || false,
    tags := p.tags, properties := p.properties,
    viewSettings := p.viewSettings, connectors := p.connectors,
    buses := p.buses, subparts := p.subparts }

/-! ## Part serializer (`Part.prototype.toFZP`, lines 1006-1250) -/

/-- A property element (lines 1070-1079): name and showInLabel as
attributes, the value through `setOptionalValue` at the text position. -/
def partPropertyBNode (property : PartProperty) : BVal :=
  .vnode [("name", optA property.name),
          ("showInLabel", looseA property.showInLabel)]
    (setOptionalText none property.value) []

/-- A view layer element (lines 1089-1097). -/
def partLayerBNode (layer : PartLayer) : BVal :=
  .vnode [("layerId", optA layer.id), ("sticky", BAttrV.b layer.sticky)]
    none []

/-- A part view element (lines 1085-1113): flip flags as raw booleans, a
`layers` child whose `image` attribute is set only when truthy. -/
def partViewBNode (vs : PartViewSettings) : BVal :=
  let layersAttrs := match vs.image with
    | some img => if img == "" then [] else [("image", BAttrV.s img)]
    | none => ([] : List (String × BAttrV))
  .vnode [("fliphorizontal", BAttrV.b vs.flipHorizontal),
          ("flipvertical", BAttrV.b vs.flipVertical)] none
    [("layers",
      [.vnode layersAttrs none [("layer", vs.layers.map partLayerBNode)]])]

/-- A connector layer element (lines 1133-1144): layer name, svgId and
`hybrid` (the disabled flag) as attributes; `terminalId`/`legId` go
through `setOptionalValue` on the element itself, i.e. become child
elements (while the parser reads them back as attributes). -/
def partConnLayerBNode (layer : PartConnectorLayerSettings) : BVal :=
  .vnode [("layer", optA layer.name), ("svgId", optA layer.svgId),
          ("hybrid", looseA layer.disabled)] none
    (setOptionalKid (setOptionalKid [] "terminalId" layer.terminalId)
      "legId" layer.legId)

/-- A connector element (lines 1125-1185).  Note line 1158 reads
`connector.replacedby` — lower-case `b`, a property the constructor never
sets (it sets `replacedBy`) — so the value is always `undefined` and the
attribute is never written. -/
def partConnectorBNode (connector : PartConnector) : BVal :=
  let views := BVal.vnode [] none (connector.viewSettings.map fun vs =>
    (appendViewSuffix vs.name,
     [BVal.vnode [] none [("p", vs.layerSettings.map partConnLayerBNode)]]))
  let attrs := [("id", optA connector.id), ("name", optA connector.name),
                ("type", optA connector.type)]
  let attrs := setOptionalAttr attrs "replacedby" none
  let kids := [("views", [views])]
  let kids := setOptionalKid kids "description" connector.description
  let kids := match connector.erc with
    | some erc =>
        let ercAttrs := setOptionalAttr (setOptionalAttr [] "etype" erc.type)
          "ignore" erc.ignore
        let ercKids := match erc.voltage with
          | some vv =>
              if vv == "" then []
              else [("voltage", [BVal.vnode [("value", BAttrV.s vv)] none []])]
          | none => ([] : List (String × List BVal))
        let ercKids := match erc.current with
          | some cur => ercKids ++ [("current",
              [BVal.vnode [("flow", optA cur.flow),
                           ("valueMax", optA cur.valueMax)] none []])]
          | none => ercKids
        kids ++ [("erc", [BVal.vnode ercAttrs none ercKids])]
    | none => kids
  .vnode attrs none kids

/-- A bus element (lines 1195-1215): `nodeMember` children carry the
connector ids; the bus id attribute is set only when truthy. -/
def busBNode (bus : Bus) : BVal :=
  let attrs := match bus.id with
    | some i => if i == "" then [] else [("id", BAttrV.s i)]
    | none => ([] : List (String × BAttrV))
  .vnode attrs none
    [("nodeMember", bus.connectorIds.map fun cid =>
      BVal.vnode [("connectorId", optA cid)] none [])]

/-- A subpart element (lines 1224-1243): written under the container
element named `subparts`. -/
def subpartBNode (subp : Subpart) : BVal :=
  .vnode [("id", optA subp.id), ("label", optA subp.label)] none
    [("connectors",
      [.vnode [] none [("connector", subp.connectorIds.map fun cid =>
        BVal.vnode [("id", optA cid)] none [])]])]

/-- `Part.prototype.toFZP`: the root `module` object.  The subparts
container is the element named `subparts` (line 1219) — while `fromFZP`
looks for `schematic-subparts`. -/
def Part.toFZP (p : Part) : BVal :=
  let attrs := [("moduleId", optA p.moduleId)]
  let kids : List (String × List BVal) := [("title", [bOptStr p.title])]
  let kids := match p.version with
    | some ver =>
        if ver == "" then kids
        else
          let vAttrs := match p.replacedBy with
            | some rb => if rb == "" then [] else [("replacedby", BAttrV.s rb)]
            | none => ([] : List (String × BAttrV))
          kids ++ [("version", [BVal.vnode vAttrs (some ver) []])]
    | none => kids
  let attrs := setOptionalAttr attrs "fritzingVersion" p.fritzingVersion
  let attrs := setOptionalAttr attrs "referenceFile" p.referenceFile
  let kids := setOptionalKid kids "author" p.author
  let kids := setOptionalKid kids "label" p.label
  let kids := setOptionalKid kids "description" p.description
  let kids := setOptionalKid kids "url" p.url
  let kids := setOptionalKid kids "date" p.date
  let kids := setOptionalKid kids "taxonomy" p.taxonomy
  let kids := setOptionalKid kids "language" p.language
  let kids := setOptionalKid kids "family" p.family
  let kids := setOptionalKid kids "variant" p.variant
  let kids := if p.tags.length > 0 then
      kids ++ [("tags",
        [BVal.vnode [] none [("tag", p.tags.map fun t =>
          BVal.vnode [] t [])]])]
    else kids
  let kids := if p.properties.length > 0 then
      kids ++ [("properties",
        [BVal.vnode [] none [("property", p.properties.map partPropertyBNode)]])]
    else kids
  let viewKids := p.viewSettings.map fun vs =>
    (appendViewSuffix vs.name, [partViewBNode vs])
  let viewKids := setOptionalKid viewKids "defaultUnits" p.defaultUnits
  let kids := kids ++ [("views", [BVal.vnode [] none viewKids])]
  let kids := if p.connectors.length > 0 then
      kids ++ [("connectors",
        [BVal.vnode [("ignoreTerminalPoints", BAttrV.b p.ignoreTerminalPoints)]
          none [("connector", p.connectors.map partConnectorBNode)]])]
    else kids
  let kids := if p.buses.length > 0 then
      kids ++ [("buses", [BVal.vnode [] none [("bus", p.buses.map busBNode)]])]
    else kids
  let kids := if p.subparts.length > 0 then
      kids ++ [("subparts",
        [BVal.vnode [] none [("subpart", p.subparts.map subpartBNode)]])]
    else kids
  .vnode attrs none kids

/-! ## Part parser (`Part.fromFZP`, lines 1268-1491) -/

/-- The tags block (lines 1308-1314), guarded by
`module.tags && module.tags[0].tag`; each tag is the element text. -/
def parsePartTags (m : XVal) : Except JsErr (List (Option String)) :=
  match xChild m "tags" with
  | none => .ok []
  | some [] => .error .typeError
  | some (t0 :: _) =>
      match xChild t0 "tag" with
      | none => .ok []
      | some mts => .ok (mts.map xText)

/-- The properties block (lines 1316-1327): name and showInLabel from
attributes (the latter as its raw string), the value from the element
text. -/
def parsePartProperties (m : XVal) : Except JsErr (List PartProperty) :=
  match xChild m "properties" with
  | none => .ok []
  | some [] => .error .typeError
  | some (p0 :: _) =>
      match xChild p0 "property" with
      | none => .ok []
      | some mps => mps.mapM fun mp => do
          let a ← xDollar mp
          .ok (PartProperty.make (a.lookup "name") (xText mp)
            (match a.lookup "showInLabel" with
             | some s => JsLoose.str s
             | none => JsLoose.undefined))

/-- One part view element (lines 1334-1353): the required
`layers[0].layer` list, sticky compared against `'true'`, the image from
the `layers` element, the flip flags compared against `'true'`. -/
def parsePartView (key : String) (mv : XVal) :
    Except JsErr PartViewSettings := do
  let l0 ← jsChild0 mv "layers"
  let layers ← match xChild l0 "layer" with
    | none => .error .typeError
    | some mls => mls.mapM fun ml => do
        let a ← xDollar ml
        .ok (PartLayer.make (a.lookup "layerId")
          (getOptAttr ml "sticky" == some "true"))
  .ok (PartViewSettings.make
    { name := stripViewSuffix key,
      image := getOptAttr l0 "image",
      layers := layers,
      flipHorizontal := getOptAttr mv "fliphorizontal" == some "true",
      flipVertical := getOptAttr mv "flipvertical" == some "true" })

/-- The view loop (lines 1329-1354): over the keys of the required
`views[0]` object, keeping only keys that end in `View`. -/
def parsePartViews (m : XVal) : Except JsErr (List PartViewSettings) := do
  let v0 ← jsChild0 m "views"
  ((xKeys v0).filter fun k => k.endsWith "View").mapM fun key => do
    match xChild v0 key with
    | some (mv :: _) => parsePartView key mv
    | _ => .error .typeError

/-- The connector view loop (lines 1364-1388): over all keys of the
connector's `views[0]` object (no suffix filter), with the layer list
under the `p` key guarded. -/
def parsePartConnViews (mc : XVal) :
    Except JsErr (List PartConnectorViewSettings) := do
  let cv0 ← jsChild0 mc "views"
  (xKeys cv0).mapM fun key => do
    match xChild cv0 key with
    | some (mv :: _) => do
        let layers ← match xChild mv "p" with
          | none => .ok []
          | some mls => mls.mapM fun ml => do
              let a ← xDollar ml
              .ok (PartConnectorLayerSettings.make
                { name := a.lookup "layer", svgId := a.lookup "svgId",
                  terminalId := a.lookup "terminalId",
                  legId := a.lookup "legId",
                  disabled := match a.lookup "hybrid" with
                    | some s => JsLoose.str s
                    | none => JsLoose.undefined })
        .ok (PartConnectorViewSettings.mk (stripViewSuffix key) layers)
    | _ => .error .typeError

/-- The ERC block (lines 1389-1411), guarded by
`moduleConnector.erc && moduleConnector.erc[0]`. -/
def parsePartERC (mc : XVal) : Except JsErr (Option ERC) :=
  match xChild mc "erc" with
  | none => .ok none
  | some [] => .ok none
  | some (me :: _) => do
      let voltage ← match xChild me "voltage" with
        | none => .ok (none : Option String)
        | some [] => .ok none
        | some (mv :: _) => do
            let a ← xDollar mv
            .ok (a.lookup "value")
      let current ← match xChild me "current" with
        | none => .ok (none : Option Current)
        | some [] => .ok none
        | some (mc2 :: _) =>
            .ok (some (Current.mk (getOptAttr mc2 "flow")
              (getOptAttr mc2 "valueMax")))
      .ok (some (ERC.mk (getOptAttr me "etype") voltage current
        (getOptAttr me "ignore")))

/-- One connector element (lines 1361-1423): views, ERC, then the
constructor with id/name/type/replacedby from attributes and the
description from a child element's text. -/
def parsePartConnector (mc : XVal) : Except JsErr PartConnector := do
  let viewSettings ← parsePartConnViews mc
  let erc ← parsePartERC mc
  let ca ← xDollar mc
  let description ← getOptionalValue (xChild mc "description")
  .ok (PartConnector.make
    { id := ca.lookup "id", name := ca.lookup "name",
      type := ca.lookup "type", description := description,
      replacedBy := ca.lookup "replacedby", erc := erc,
      viewSettings := viewSettings })

/-- The connectors block (lines 1356-1424), guarded by
`module.connectors && module.connectors[0].connector`; also yields the
`ignoreTerminalPoints` flag compared against `'true'`. -/
def parsePartConnectorsBlock (m : XVal) :
    Except JsErr (Bool × List PartConnector) :=
  match xChild m "connectors" with
  | none => .ok (false, [])
  | some [] => .error .typeError
  | some (c0 :: _) =>
      match xChild c0 "connector" with
      | none => .ok (false, [])
      | some mcs => do
          let itp := getOptAttr c0 "ignoreTerminalPoints" == some "true"
          let conns ← mcs.mapM parsePartConnector
          .ok (itp, conns)

/-- The buses block (lines 1426-1443). -/
def parsePartBuses (m : XVal) : Except JsErr (List Bus) :=
  match xChild m "buses" with
  | none => .ok []
  | some [] => .error .typeError
  | some (b0 :: _) =>
      match xChild b0 "bus" with
      | none => .ok []
      | some mbs => mbs.mapM fun mb => do
          let conns ← match xChild mb "nodeMember" with
            | none => .ok ([] : List (Option String))
            | some mns => mns.mapM fun mn => do
                let a ← xDollar mn
                .ok (a.lookup "connectorId")
          .ok (Bus.mk (getOptAttr mb "id") conns)

/-- The subparts block (lines 1445-1461): read from the element named
`schematic-subparts` — while `toFZP` writes `subparts` — with the
connector list dereferenced unguarded. -/
def parsePartSubparts (m : XVal) : Except JsErr (List Subpart) :=
  match xChild m "schematic-subparts" with
  | none => .ok []
  | some [] => .error .typeError
  | some (s0 :: _) =>
      match xChild s0 "subpart" with
      | none => .ok []
      | some mss => mss.mapM fun ms => do
          let conns ← match xChild ms "connectors" with
            | some (c0 :: _) =>
                (match xChild c0 "connector" with
                 | some mcs => mcs.mapM fun mc => do
                     let a ← xDollar mc
                     .ok (a.lookup "id")
                 | none => .error .typeError)
            | _ => .error .typeError
          let sa ← xDollar ms
          .ok (Subpart.mk (sa.lookup "id") (sa.lookup "label") conns)

/-- `Part.fromFZP` on the parsed `module` node, in source order: version,
tags, properties, views, connectors, buses, subparts, then the `Part`
construction (whose argument expressions perform the remaining reads:
the unguarded `module.title[0]._`, the optional text children, and
`views[0].defaultUnits`). -/
def Part.fromFZP (m : XVal) : Except JsErr Part := do
  let moduleVersion ← getOptionalValue (xChild m "version")
  let moduleReplacedBy : Option String :=
    if jsTruthyStr moduleVersion then
      match xChild m "version" with
      | some (v0 :: _) => getOptAttr v0 "replacedby"
      | _ => none
    else none
  let tags ← parsePartTags m
  let properties ← parsePartProperties m
  let viewSettings ← parsePartViews m
  let cb ← parsePartConnectorsBlock m
  let buses ← parsePartBuses m
  let subparts ← parsePartSubparts m
  let ma ← xDollar m
  let t0 ← jsChild0 m "title"
  let author ← getOptionalValue (xChild m "author")
  let label ← getOptionalValue (xChild m "label")
  let description ← getOptionalValue (xChild m "description")
  let url ← getOptionalValue (xChild m "url")
  let date ← getOptionalValue (xChild m "date")
  let taxonomy ← getOptionalValue (xChild m "taxonomy")
  let family ← getOptionalValue (xChild m "family")
  let language ← getOptionalValue (xChild m "language")
  let variant ← getOptionalValue (xChild m "variant")
  let v0 ← jsChild0 m "views"
  let defaultUnits ← getOptionalValue (xChild v0 "defaultUnits")
  .ok (Part.make
    { moduleId := ma.lookup "moduleId", title := xText t0,
      fritzingVersion := getOptAttr m "fritzingVersion",
      referenceFile := getOptAttr m "referenceFile",
      version := moduleVersion, replacedBy := moduleReplacedBy,
      author := author, label := label, description := description,
      url := url, date := date, taxonomy := taxonomy,
      language := language, family := family, variant := variant,
      defaultUnits := defaultUnits, ignoreTerminalPoints := cb.1,
      tags := tags, properties := properties,
      viewSettings := viewSettings, connectors := cb.2,
      buses := buses, subparts := subparts })

/-- The full Part round trip at the node-tree level: serialize, cross the
XML text layer, re-parse. -/
def partRoundTrip (p : Part) : Except JsErr Part :=
  Part.fromFZP (transport (Part.toFZP p))

/-! ## Archive layer (`src/lib/bundle.js`, `src/lib/bin.js`)

The zip container itself is the external collaborator of spec section 6
(a list of entries with a name, byte content, and a text decode); entry
contents are modelled by `ZData`. -/

/-- Modelled from the spec: the decoded content of one archive entry
(spec section 6's zip-entries abstraction).  A zero-length buffer decodes
to the empty text (`empty`); a primary document's XML text is carried as
the node tree it parses to (`doc`); any other nonempty byte blob is
`blob`. -/
inductive ZData where
  | empty
  | doc (x : XVal)
  | blob (s : String)

/-- Whether the decoded text is `''` (equivalently, the buffer has zero
length): the check both `Bundle.fromZip` and `PartBin.fromFZB` perform
per entry. -/
def ZData.isEmptyText : ZData → Bool
  | .empty => true
  | .doc _ => false
  | .blob s => s == ""

/-- One archive entry: name and decoded content. -/
structure ZipEntry where
  entryName : String
  content : ZData

/-- The three kind-specific operations a concrete bundle kind supplies
(SketchBundle / PartBundle / PartBinBundle): serialize one primary,
parse one primary, classify an entry name as primary. -/
structure BundleOps (α : Type) where
  toFile : α → ZData
  fromFile : ZData → Except JsErr α
  isPrimary : String → Bool

/-- The `Bundle` state: primary documents and auxiliary blobs, keyed by
entry name. -/
structure Bundle (α : Type) where
  primary : List (String × α)
  auxiliary : List (String × ZData)

/-- `Bundle.prototype.toZip` (lines 85-104): every primary through the
kind's `toFile` under its name, every auxiliary verbatim under its
name. -/
def Bundle.toZip {α : Type} (ops : BundleOps α) (b : Bundle α) :
    List ZipEntry :=
  b.primary.map (fun nv => ⟨nv.1, ops.toFile nv.2⟩) ++
  b.auxiliary.map (fun nv => ⟨nv.1, nv.2⟩)

/-- What one entry of `Bundle.fromZip` contributes on success. -/
inductive EntryResult (α : Type) where
  | primary (a : α)
  | auxiliary (d : ZData)

/-- The receiver (`this`) observed by the plain functions nested inside
`Bundle.fromZip` — the per-entry promise executor (lines 130-157) and the
`then` callback (line 162).  `bundle.js` is a strict-mode module
(`'use strict'`, line 21), and both callbacks are invoked with an
`undefined` receiver, so the kind-specific statics (`isPrimary`,
`fromFile`) and the constructor (`new this(...)`) are never reachable
from `fromZip`. -/
def executorReceiver (α : Type) : Option (BundleOps α) := none

/-- The per-entry promise executor of `Bundle.fromZip` (lines 130-157),
parameterized by the receiver the nested function observes: with a
defined receiver it would route a primary entry through `fromFile`
(rejecting a zero-length one with an error naming the entry) and store an
auxiliary entry's text verbatim (same zero-length check); with the
`undefined` receiver the very first step, `this.isPrimary(entryName)`,
throws a `TypeError`. -/
def fromZipEntry {α : Type} (thisv : Option (BundleOps α)) (e : ZipEntry) :
    Except JsErr (EntryResult α) :=
  match thisv with
  | none => .error .typeError
  | some ops =>
      if ops.isPrimary e.entryName then
        if !e.content.isEmptyText then
          (ops.fromFile e.content).map .primary
        else .error (.emptyEntry e.entryName)
      else
        if !e.content.isEmptyText then .ok (.auxiliary e.content)
        else .error (.emptyEntry e.entryName)

/-- `Promise.all` over already-settled promises (the entry callbacks run
synchronously, in entry order): the first rejection rejects the whole
aggregate, otherwise all results are collected. -/
def promiseAll {β : Type} : List (Except JsErr β) → Except JsErr (List β)
  | [] => .ok []
  | e :: rest => do
      let x ← e
      let xs ← promiseAll rest
      .ok (x :: xs)

/-- Assembling the `primary`/`auxiliary` maps from the per-entry results,
keyed by entry name (the side-effecting assignments of lines 138 and
150). -/
def assembleBundle {α : Type} (zip : List ZipEntry)
    (results : List (EntryResult α)) : Bundle α :=
  { primary := (zip.zip results).filterMap fun er =>
      match er.2 with
      | .primary a => some (er.1.entryName, a)
      | .auxiliary _ => none,
    auxiliary := (zip.zip results).filterMap fun er =>
      match er.2 with
      | .auxiliary d => some (er.1.entryName, d)
      | .primary _ => none }

/-- `Bundle.fromZip` (lines 122-168): every entry's executor runs with
the `undefined` receiver, and the final `new this(primary, auxiliary)`
(line 162) dereferences the same `undefined` receiver, so the promise
never resolves. -/
def Bundle.fromZip (α : Type) (zip : List ZipEntry) :
    Except JsErr (Bundle α) := do
  let results ← promiseAll (zip.map (fromZipEntry (executorReceiver α)))
  match executorReceiver α with
  | none => .error .typeError
  | some _ => .ok (assembleBundle zip results)

/-- Modelled from the spec: `Part.fromFZP` applied to an entry's decoded
text — the XML text layer is the external collaborator of spec section 6;
a nonempty non-document blob makes the XML parser reject. -/
def partFromText : ZData → Except JsErr Part
  | .doc x => Part.fromFZP x
  | .blob _ => .error .malformedXml
  | .empty => .error .malformedXml

/-- JavaScript `entryName.split('.')[0]`. -/
def jsSplitHead (s : String) : String := (s.splitOn ".").headD ""

/-- The `PartBin` state.  `fromFZB` stores `Part.fromFZP(data)` — the
promise itself, never awaited — under each name; the stored value is
modelled by the promise's eventual settlement. -/
structure PartBin where
  parts : List (String × Except JsErr Part)

/-- The per-entry promise executor of `PartBin.fromFZB` (lines 73-84 of
`bin.js`): nonempty text stores the (pending) part parse under the name
before the first dot; zero-length text rejects with an error naming the
entry. -/
def fzbEntry (e : ZipEntry) : Except JsErr (String × Except JsErr Part) :=
  if !e.content.isEmptyText then
    .ok (jsSplitHead e.entryName, partFromText e.content)
  else .error (.emptyEntry e.entryName)

/-- `PartBin.fromFZB` (lines 66-94 of `bin.js`): all entry promises
through `Promise.all`, then `new PartBin(parts)` — here the receiver is
the named constructor, so the assembly is reachable. -/
def PartBin.fromFZB (zip : List ZipEntry) : Except JsErr PartBin := do
  let parts ← promiseAll (zip.map fzbEntry)
  .ok ⟨parts⟩

/-! ## Inspection helpers and concrete inputs used by the theorems -/

/-- The first element of a named child array, when present. -/
def firstChild (v : XVal) (k : String) : Option XVal :=
  match xChild v k with
  | some (c :: _) => some c
  | _ => none

/-- An attribute of the first `k`-child. -/
def childAttr (v : XVal) (k attr : String) : Option String :=
  (firstChild v k).bind fun c => getOptAttr c attr

/-- An attribute of the first `k2`-grandchild below the first `k1`-child. -/
def grandchildAttr (v : XVal) (k1 k2 attr : String) : Option String :=
  ((firstChild v k1).bind fun c => firstChild c k2).bind fun g =>
    getOptAttr g attr

mutual

/-- Whether an attribute with the given name occurs anywhere in the tree. -/
def hasAttrDeep : XVal → String → Bool
  | .emptyStr, _ => false
  | .node attrs _ kids, k =>
      attrs.any (fun p => p.1 == k) || hasAttrDeepKids kids k

/-- `hasAttrDeep` over a kid list. -/
def hasAttrDeepKids : List (String × List XVal) → String → Bool
  | [], _ => false
  | (_, l) :: rest, k => hasAttrDeepList l k || hasAttrDeepKids rest k

/-- `hasAttrDeep` over a child array. -/
def hasAttrDeepList : List XVal → String → Bool
  | [], _ => false
  | v :: r, k => hasAttrDeep v k || hasAttrDeepList r k

end

/-- Whether a built bezier slot is the empty-string placeholder `''`. -/
def isEmptyPlaceholder : BVal → Bool
  | .vstr s => s == ""
  | _ => false

/-- The example sketch of the spec's scenario (spec section 8): version
`0.9.3`, one board, one breadboard view with `showGrid` true and
`alignToGrid` false, zero instances — built through the constructors. -/
def sketchC6 : Sketch :=
  Sketch.make
    { fritzingVersion := some "0.9.3",
      boards := [Board.make
        { moduleId := some "b1", title := some "Board1",
          instanceName := some "i1", width := some "3.5in",
          height := some "2.5in" }],
      viewSettings := [SketchViewSettings.make
        { name := "breadboard", showGrid := true, alignToGrid := false }] }

/-- A concrete sketch view element whose `showGrid` attribute is `"0"`. -/
def c10View : XVal :=
  .node [("name", "breadboardView"), ("showGrid", "0"),
         ("alignToGrid", "0"), ("viewFromBelow", "0")] none []

/-- A concrete minimal instance element (its `views` child is empty). -/
def c10Inst : XVal :=
  .node [("moduleIdRef", "m0"), ("modelIndex", "0"),
         ("path", "part/p.fzp"), ("flippedSMD", "false")] none
    [("views", [XVal.emptyStr])]

/-- A concrete parsable module tree with one view and one instance. -/
def c10Xml : XVal :=
  .node [("fritzingVersion", "0.9.3")] none
    [("views", [.node [] none [("view", [c10View])]]),
     ("instances", [.node [] none [("instance", [c10Inst])]])]

/-- The view settings `Sketch.fromFZ` produces for `c10View`: its
`showGrid` is `true` although the attribute was `"0"`. -/
def c10ParsedView : SketchViewSettings :=
  { name := "breadboard", backgroundColor := none, gridSize := none,
    showGrid := true, alignToGrid := false, viewFromBelow := false,
    pcb := none }

/-- The sketch `Sketch.fromFZ` produces for `c10Xml`. -/
def c10Sketch : Sketch :=
  { fritzingVersion := some "0.9.3", programs := [], boards := [],
    viewSettings := [c10ParsedView],
    instances := [{ moduleIdRef := some "m0", modelIndex := some "0",
                    path := some "part/p.fzp", properties := [],
                    title := none, viewSettings := [], text := none,
                    flippedSMD := false, localConnectors := [] }] }

/-- A sketch view record with the two grid booleans left free (reachable
states: the fields are public and callers may assign them). -/
def c5SketchView (g a : Bool) : SketchViewSettings :=
  { name := "breadboard", backgroundColor := some "#eeeeee",
    gridSize := some "0.1in", showGrid := g, alignToGrid := a,
    viewFromBelow := false, pcb := none }

/-- A plain instance view record with `locked`/`bottom` left free. -/
def c5InstView (lo bo : Bool) : InstanceViewSettings :=
  { name := "breadboard", layer := some "breadboard",
    geometry := .trans ⟨some "10", some "20", some "2.5", none⟩,
    titleGeometry := none, connectors := [], bottom := bo, locked := lo,
    layerHidden := .undefined, wireExtras := none }

/-- A wire instance view record with `banded` left free. -/
def c5WireView (ba : Bool) : InstanceViewSettings :=
  { name := "breadboard", layer := some "breadboardWire",
    geometry := .wire ⟨some "0", some "0", some "2.5", "0", "0",
      some "100", some "0", some "64"⟩,
    titleGeometry := none, connectors := [], bottom := false,
    locked := false, layerHidden := .undefined,
    wireExtras := some ⟨some "100", some "#418dd9", some "1.0", ba, none⟩ }

/-- An instance record with `flippedSMD` left free. -/
def c5Inst (fl : Bool) : Instance :=
  { moduleIdRef := some "m0", modelIndex := some "3", path := some "p",
    properties := [], title := none, viewSettings := [], text := none,
    flippedSMD := fl, localConnectors := [] }

/-- A sketch view element whose grid attributes are arbitrary strings. -/
def c5ViewXml (s1 s2 : String) : XVal :=
  .node [("name", "breadboardView"), ("showGrid", s1),
         ("alignToGrid", s2), ("viewFromBelow", "0")] none []

/-- A plain instance view element whose `locked`/`bottom` attributes are
arbitrary strings. -/
def c5IvXml (sl sb : String) : XVal :=
  .node [("layer", "breadboard"), ("locked", sl), ("bottom", sb)] none
    [("geometry", [.node [("x", "1"), ("y", "2"), ("z", "3")] none []])]

/-- A wire instance view element whose `banded` attribute is an arbitrary
string. -/
def c5WireIvXml (sba : String) : XVal :=
  .node [("layer", "wire0"), ("locked", "false"), ("bottom", "false")] none
    [("geometry", [.node [("x", "0"), ("y", "0"), ("z", "1"), ("x1", "0"),
       ("y1", "0"), ("x2", "50"), ("y2", "0"), ("wireFlags", "64")] none []]),
     ("wireExtras", [.node [("mils", "100"), ("color", "#418dd9"),
       ("opacity", "1.0"), ("banded", sba)] none []])]

/-- An instance element whose `flippedSMD` attribute is an arbitrary
string. -/
def c5InstXml (sf : String) : XVal :=
  .node [("moduleIdRef", "m0"), ("modelIndex", "4"), ("path", "p"),
         ("flippedSMD", sf)] none [("views", [XVal.emptyStr])]

/-- A titleGeometry element whose `visible` attribute is an arbitrary
string. -/
def c5TgXml (sv : String) : XVal :=
  .node [("x", "1"), ("y", "2"), ("z", "3"), ("visible", sv),
         ("xOffset", "4"), ("yOffset", "5"), ("textColor", "#000000"),
         ("fontSize", "12")] none []

/-- An instance view carrying a titleGeometry (with `visible` false and a
forced-visible property), used to show the serializer drops it. -/
def c5VisView : InstanceViewSettings :=
  { name := "breadboard", layer := some "breadboard",
    geometry := .trans ⟨some "0", some "0", some "1", none⟩,
    titleGeometry := some (TitleGeometry.make
      { x := some "0", y := some "0", z := some "2", visible := false,
        textColor := some "#000000", fontSize := some "11",
        visibleProperties := [some "resistance"] }),
    connectors := [], bottom := false, locked := false,
    layerHidden := .undefined, wireExtras := none }

/-- A sketch whose single instance view carries the titleGeometry above. -/
def c5VisSketch : Sketch :=
  Sketch.make
    { fritzingVersion := some "0.9.3",
      viewSettings := [SketchViewSettings.make { name := "breadboard" }],
      instances := [Instance.make
        { moduleIdRef := some "m0", modelIndex := some "1",
          path := some "p", viewSettings := [c5VisView] }] }

/-- The leg of the spec's example scenario: a first point with no Bezier,
a second with one. -/
def c7Leg : List PointBezierPair :=
  [⟨⟨some "0", some "0"⟩, none⟩,
   ⟨⟨some "5", some "5"⟩,
    some ⟨⟨some "1", some "1"⟩, ⟨some "4", some "4"⟩⟩⟩]

/-- The view settings `parseInstanceView` produces for
`c5IvXml "false" "false"` under the key `breadboardView`. -/
def c8Parsed : InstanceViewSettings :=
  { name := "breadboard", layer := some "breadboard",
    geometry := .trans ⟨some "1", some "2", some "3", none⟩,
    titleGeometry := none, connectors := [], bottom := false,
    locked := false, layerHidden := .bool false, wireExtras := none }

/-- A part with one subpart, built through the constructors. -/
def c1Part : Part :=
  Part.make
    { moduleId := some "m1", title := some "LED",
      subparts := [Subpart.mk (some "s1") (some "Half A")
        [some "connector0"]] }

/-- What `partRoundTrip` returns for `c1Part`: everything survives except
the subparts, which come back empty. -/
def c1Parsed : Part :=
  Part.make { moduleId := some "m1", title := some "LED" }

/-- A sketch view whose `backgroundColor` is absent. -/
def c4ViewNoBg : SketchViewSettings :=
  { name := "breadboard", backgroundColor := none, gridSize := none,
    showGrid := true, alignToGrid := false, viewFromBelow := false,
    pcb := none }

/-- A sketch view whose `backgroundColor` is present but empty — a
present falsy value. -/
def c4ViewEmptyBg : SketchViewSettings :=
  { name := "breadboard", backgroundColor := some "", gridSize := none,
    showGrid := true, alignToGrid := false, viewFromBelow := false,
    pcb := none }

/-- A well-formed primary archive entry (a serialized part). -/
def c3Good : ZipEntry := ⟨"good.fzp", .doc (transport (Part.toFZP c1Parsed))⟩

/-- An archive entry whose decoded content has zero length. -/
def c3Empty : ZipEntry := ⟨"empty.fzp", .empty⟩

/-- C9: For every view name n (any string, not only the four known views),
stripping the 4-character literal suffix 'View' from the XML tag produced
by appending 'View' to n returns n unchanged:
stripViewSuffix(appendViewSuffix(n)) == n in both the Part codec and the
Sketch codec. -/
theorem c9_view_suffix_roundtrip (n : String) :
    stripViewSuffix (appendViewSuffix n) = n := by
  unfold stripViewSuffix appendViewSuffix
  show String.mk ((n.data ++ "View".data).take
    ((n.data ++ "View".data).length - 4)) = n
  have hlen : (n.data ++ "View".data).length - 4 = n.data.length := by
    simp [List.length_append]
  rw [hlen, List.take_left]

/-- C6: The Sketch with fritzingVersion "0.9.3", one Board
{moduleId:"b1", title:"Board1", instance:"i1", width:"3.5in",
height:"2.5in"}, one breadboard SketchViewSettings with showGrid true and
alignToGrid false, and zero instances serializes (toFZ) to XML whose
boards/board element carries moduleId="b1" and whose views/view element
carries name="breadboardView" showGrid="1" alignToGrid="0" — that much
holds — but parsing that XML back (fromFZ) does not reproduce the
original Sketch: with zero instances the serializer emits an empty
`instances` element, and `Sketch.fromFZ` dereferences
`module.instances[0].instance` unguarded, so the parse throws a
`TypeError` instead of resolving. -/
theorem c6_example_sketch_eval :
    grandchildAttr (transport (Sketch.toFZ sketchC6)) "boards" "board"
      "moduleId" = some "b1" ∧
    grandchildAttr (transport (Sketch.toFZ sketchC6)) "views" "view"
      "name" = some "breadboardView" ∧
    grandchildAttr (transport (Sketch.toFZ sketchC6)) "views" "view"
      "showGrid" = some "1" ∧
    grandchildAttr (transport (Sketch.toFZ sketchC6)) "views" "view"
      "alignToGrid" = some "0" ∧
    sketchC6.instances = [] ∧
    Sketch.fromFZ (transport (Sketch.toFZ sketchC6)) =
      .error .typeError :=
  ⟨rfl, rfl, rfl, rfl, rfl, rfl⟩

/-- Destructuring a successful `Except` bind. -/
theorem bind_ok {α β : Type} {e : Except JsErr α} {f : α → Except JsErr β}
    {b : β} (h : (e >>= f) = .ok b) : ∃ a, e = .ok a ∧ f a = .ok b := by
  cases e with
  | ok a => exact ⟨a, rfl, h⟩
  | error err => exact Except.noConfusion h

/-- A successful `mapM` over `Except` maps members to members. -/
theorem mapM_ok_mem {α β : Type} {f : α → Except JsErr β} :
    ∀ {l : List α} {out : List β}, l.mapM f = .ok out →
      ∀ b ∈ out, ∃ a ∈ l, f a = .ok b := by
  intro l
  induction l with
  | nil =>
      intro out h b hb
      rw [List.mapM_nil] at h
      cases h
      simp at hb
  | cons a tl ih =>
      intro out h b hb
      rw [List.mapM_cons] at h
      obtain ⟨x, hx, h⟩ := bind_ok h
      obtain ⟨xs, hxs, h⟩ := bind_ok h
      cases h
      rcases hb with _ | ⟨_, hb⟩
      · exact ⟨a, List.mem_cons_self a tl, hx⟩
      · obtain ⟨a2, ha2, hfa⟩ := ih hxs b hb
        exact ⟨a2, List.mem_cons_of_mem a ha2, hfa⟩

/-- Every view settings object `parseSketchView` produces has
`showGrid = true`: both constructors coerce the parsed comparison with
`|| true`. -/
theorem parseSketchView_showGrid {v : XVal} {vs : SketchViewSettings}
    (h : parseSketchView v = .ok vs) : vs.showGrid = true := by
  unfold parseSketchView at h
  obtain ⟨p, _, h⟩ := bind_ok h
  split at h
  · cases h
    simp [SketchPCBViewSettings.make, SketchViewSettings.make]
  · cases h
    simp [SketchViewSettings.make]

/-- Every view settings object in a `Sketch.fromFZ` result has
`showGrid = true`. -/
theorem fromFZ_viewSettings_showGrid {t : XVal} {s : Sketch}
    (h : Sketch.fromFZ t = .ok s) :
    ∀ vs ∈ s.viewSettings, vs.showGrid = true := by
  unfold Sketch.fromFZ at h
  obtain ⟨boards, _, h⟩ := bind_ok h
  obtain ⟨programs, _, h⟩ := bind_ok h
  obtain ⟨views, hviews, h⟩ := bind_ok h
  obtain ⟨insts, _, h⟩ := bind_ok h
  obtain ⟨ma, _, h⟩ := bind_ok h
  cases h
  intro vs hvs
  simp only [Sketch.make] at hvs
  unfold parseSketchViews at hviews
  obtain ⟨v0, _, hviews⟩ := bind_ok hviews
  split at hviews
  · exact Except.noConfusion hviews
  · obtain ⟨a, _, hfa⟩ := mapM_ok_mem hviews vs hvs
    exact parseSketchView_showGrid hfa

/-- `setOptionalAttr` only ever appends. -/
theorem setOptionalAttr_append (attrs : List (String × BAttrV)) (k : String)
    (v : Option String) : ∃ t, setOptionalAttr attrs k v = attrs ++ t := by
  cases v with
  | none => exact ⟨[], by simp [setOptionalAttr]⟩
  | some s =>
      cases hs : (s == "") with
      | true => exact ⟨[], by simp [setOptionalAttr, hs]⟩
      | false => exact ⟨[(k, BAttrV.s s)], by simp [setOptionalAttr, hs]⟩

/-- `setOptionalAttr` preserves any prefix of its input. -/
theorem setOptionalAttr_extend {base l : List (String × BAttrV)}
    (hl : ∃ t, l = base ++ t) (k : String) (v : Option String) :
    ∃ t, setOptionalAttr l k v = base ++ t := by
  obtain ⟨t0, rfl⟩ := hl
  obtain ⟨t1, h1⟩ := setOptionalAttr_append (base ++ t0) k v
  exact ⟨t0 ++ t1, by rw [h1, List.append_assoc]⟩

/-- The serialized sketch view attribute list begins with the four
unconditional attributes; everything else is appended after them. -/
theorem sketchViewAttrs_head (vs : SketchViewSettings) :
    ∃ t, sketchViewAttrs vs =
      [("name", BAttrV.s (appendViewSuffix vs.name)),
       ("showGrid", BAttrV.n (if vs.showGrid then 1 else 0)),
       ("alignToGrid", BAttrV.n (if vs.alignToGrid then 1 else 0)),
       ("viewFromBelow", BAttrV.n (if vs.viewFromBelow then 1 else 0))] ++ t := by
  simp only [sketchViewAttrs]
  rcases hpcb : vs.pcb with _ | e <;> simp only [hpcb]
  · exact setOptionalAttr_extend (setOptionalAttr_extend ⟨[], by simp⟩ _ _) _ _
  · exact setOptionalAttr_extend (setOptionalAttr_extend (setOptionalAttr_extend
      (setOptionalAttr_extend (setOptionalAttr_extend (setOptionalAttr_extend
        (setOptionalAttr_extend ⟨[], by simp⟩ _ _) _ _) _ _) _ _) _ _) _ _) _ _

/-- C10: Implicit: every SketchViewSettings (and SketchPCBViewSettings)
object has showGrid equal to true — the constructor coerces a false or
absent showGrid parameter to true — so no Sketch built through the
constructors, including every result of Sketch.fromFZ, can represent
showGrid=false, and Sketch.toFZ on such objects always emits
showGrid="1". -/
theorem c10_showGrid_always_true (p : SketchViewParams) (t : XVal)
    (s : Sketch) (h : Sketch.fromFZ t = .ok s) (vs : SketchViewSettings)
    (hvs : vs ∈ s.viewSettings) (vs2 : SketchViewSettings)
    (h2 : vs2.showGrid = true) :
    (SketchViewSettings.make p).showGrid = true ∧
    (SketchPCBViewSettings.make p).showGrid = true ∧
    vs.showGrid = true ∧
    getOptAttr (transport (serializeSketchView vs2)) "showGrid" = some "1" := by
  refine ⟨by simp [SketchViewSettings.make],
    by simp [SketchPCBViewSettings.make, SketchViewSettings.make],
    fromFZ_viewSettings_showGrid h vs hvs, ?_⟩
  obtain ⟨tl, htl⟩ := sketchViewAttrs_head vs2
  unfold serializeSketchView
  rw [htl, h2]
  rfl

/-- Witness for C10: the theorem applied at the concrete tree `c10Xml`
(whose single view carries showGrid="0") and its parse. -/
theorem c10_showGrid_always_true_witness :
    (SketchViewSettings.make { name := "breadboard" }).showGrid = true ∧
    (SketchPCBViewSettings.make { name := "breadboard" }).showGrid = true ∧
    c10ParsedView.showGrid = true ∧
    getOptAttr (transport (serializeSketchView c10ParsedView)) "showGrid" =
      some "1" :=
  c10_showGrid_always_true { name := "breadboard" } c10Xml c10Sketch rfl
    c10ParsedView (by simp [c10Sketch]) c10ParsedView rfl

/-- C5 counterexample: the claim says serializing a Sketch writes
`visible` as "true"/"false", but the serializer never emits a `visible`
attribute at all: `c5VisSketch` carries a titleGeometry (with its
`visible` flag) on its instance view, yet no attribute named `visible`
occurs anywhere in the serialized tree — `toFZ` builds the titleGeometry
object and never attaches it.  The claim also says parsing recovers each
boolean by the per-field comparison, but a view element with
showGrid="0" parses to view settings whose `showGrid` is `true` (the
constructor coerces the comparison result with `|| true`). -/
theorem c5_visible_never_serialized :
    c5VisView.titleGeometry.isSome = true ∧
    c5VisSketch.instances.map (fun i => i.viewSettings) = [[c5VisView]] ∧
    hasAttrDeep (transport (Sketch.toFZ c5VisSketch)) "visible" = false ∧
    (parseSketchView (c5ViewXml "0" "0")).map (fun v => v.showGrid) =
      .ok true :=
  ⟨rfl, rfl, rfl, rfl⟩

/-- C5 (amended): Boolean fields are encoded per-field: serializing
writes showGrid, alignToGrid and banded as "1"/"0" and bottom, locked
and flippedSMD as "true"/"false" (`visible` is built into the
titleGeometry object but that object is never attached, so it is never
written).  Parsing compares each field against its per-field literal
(locked, bottom, flippedSMD and visible against 'true'; showGrid,
alignToGrid and banded against '1') for arbitrary attribute strings —
never generic truthy coercion — and stores the comparison result, except
that showGrid and visible are then coerced to true by their
constructors' `|| true` defaults. -/
theorem c5_boolean_encodings (g a lo bo fl ba : Bool)
    (s1 s2 sl sb sf sba sv : String) :
    getOptAttr (transport (serializeSketchView (c5SketchView g a)))
      "showGrid" = some (if g then "1" else "0") ∧
    getOptAttr (transport (serializeSketchView (c5SketchView g a)))
      "alignToGrid" = some (if a then "1" else "0") ∧
    getOptAttr (transport (serializeInstanceView (c5InstView lo bo)))
      "locked" = some (if lo then "true" else "false") ∧
    getOptAttr (transport (serializeInstanceView (c5InstView lo bo)))
      "bottom" = some (if bo then "true" else "false") ∧
    getOptAttr (transport (serializeInstance (c5Inst fl)))
      "flippedSMD" = some (if fl then "true" else "false") ∧
    childAttr (transport (serializeInstanceView (c5WireView ba)))
      "wireExtras" "banded" = some (if ba then "1" else "0") ∧
    (viewSettingsParams (c5ViewXml s1 s2)).map
      (fun p => (p.showGrid, p.alignToGrid)) = .ok (s1 == "1", s2 == "1") ∧
    (parseSketchView (c5ViewXml s1 s2)).map (fun v => v.alignToGrid)
      = .ok (s2 == "1") ∧
    (parseInstanceView "breadboardView" (c5IvXml sl sb)).map
      (fun r => (r.locked, r.bottom)) = .ok (sl == "true", sb == "true") ∧
    (parseInstance (c5InstXml sf)).map (fun i => i.flippedSMD)
      = .ok (sf == "true") ∧
    (parseInstanceView "breadboardView" (c5WireIvXml sba)).map
      (fun r => r.wireExtras.map (fun w => w.banded))
      = .ok (some (sba == "1")) ∧
    (titleGeometryParams (c5TgXml sv)).map (fun p => p.visible)
      = .ok (sv == "true") ∧
    (parseTitleGeometry (c5TgXml sv)).map (fun t => t.visible)
      = .ok true := by
  refine ⟨?_, ?_, ?_, ?_, ?_, ?_, rfl, ?_, ?_, ?_, ?_, rfl, ?_⟩
  · cases g <;> rfl
  · cases a <;> rfl
  · cases lo <;> rfl
  · cases bo <;> rfl
  · cases fl <;> rfl
  · cases ba <;> rfl
  · have h : (parseSketchView (c5ViewXml s1 s2)).map (fun v => v.alignToGrid)
        = .ok ((s2 == "1") || false) := rfl
    rw [h, Bool.or_false]
  · have h : (parseInstanceView "breadboardView" (c5IvXml sl sb)).map
        (fun r => (r.locked, r.bottom))
        = .ok ((sl == "true") || false, (sb == "true") || false) := rfl
    rw [h]
    simp only [Bool.or_false]
  · have h : (parseInstance (c5InstXml sf)).map (fun i => i.flippedSMD)
        = .ok ((sf == "true") || false) := rfl
    rw [h, Bool.or_false]
  · have h : (parseInstanceView "breadboardView" (c5WireIvXml sba)).map
        (fun r => r.wireExtras.map (fun w => w.banded))
        = .ok (some ((sba == "1") || false)) := rfl
    rw [h]
    simp only [Bool.or_false]
  · have h : (parseTitleGeometry (c5TgXml sv)).map (fun t => t.visible)
        = .ok ((sv == "true") || true) := rfl
    rw [h, Bool.or_true]

/-- C8: When parsing an instance's view element, Sketch.fromFZ constructs
a WireInstanceViewSettings (with WireGeometry) if and only if the view
element has a wireExtras child; in every other case it constructs a
plain InstanceViewSettings with a TransformGeometry — no other marker
influences the choice. -/
theorem c8_wireExtras_discriminates (key : String) (v : XVal)
    (ivs : InstanceViewSettings) (h : parseInstanceView key v = .ok ivs) :
    ivs.wireExtras.isSome = (xChild v "wireExtras").isSome ∧
    ivs.geometry.isWire = (xChild v "wireExtras").isSome := by
  unfold parseInstanceView at h
  obtain ⟨tg, _, h⟩ := bind_ok h
  obtain ⟨lh, _, h⟩ := bind_ok h
  obtain ⟨conns, _, h⟩ := bind_ok h
  obtain ⟨mg, _, h⟩ := bind_ok h
  obtain ⟨ga, _, h⟩ := bind_ok h
  rcases hw : xChild v "wireExtras" with _ | wl
  · rw [hw] at h
    obtain ⟨tr, _, h⟩ := bind_ok h
    obtain ⟨va, _, h⟩ := bind_ok h
    cases h
    simp [InstanceViewSettings.make, InstGeometry.isWire]
  · rw [hw] at h
    obtain ⟨mwe, _, h⟩ := bind_ok h
    obtain ⟨bez, _, h⟩ := bind_ok h
    obtain ⟨wa, _, h⟩ := bind_ok h
    obtain ⟨va, _, h⟩ := bind_ok h
    cases h
    simp [WireInstanceViewSettings.make, InstanceViewSettings.make,
      InstGeometry.isWire]

/-- Witness for C8: the theorem applied at the concrete plain view
element `c5IvXml "false" "false"` and its parse `c8Parsed`. -/
theorem c8_wireExtras_discriminates_witness :
    c8Parsed.wireExtras.isSome
      = (xChild (c5IvXml "false" "false") "wireExtras").isSome ∧
    c8Parsed.geometry.isWire
      = (xChild (c5IvXml "false" "false") "wireExtras").isSome :=
  c8_wireExtras_discriminates "breadboardView" (c5IvXml "false" "false")
    c8Parsed rfl

/-- `transportList` preserves length. -/
theorem transportList_length (l : List BVal) :
    (transportList l).length = l.length := by
  induction l with
  | nil => rfl
  | cons b r ih => simp [transportList, ih]

/-- The two arrays the leg loop builds both have the leg's length. -/
theorem serializeLeg_length (leg : List PointBezierPair) :
    (serializeLeg leg).1.length = leg.length ∧
    (serializeLeg leg).2.length = leg.length := by
  induction leg with
  | nil => exact ⟨rfl, rfl⟩
  | cons pr rest ih => simp [serializeLeg, ih.1, ih.2]

/-- A serialized bezier slot is the empty placeholder exactly when the
pair has no Bezier. -/
theorem serializeLeg_placeholders (leg : List PointBezierPair) :
    (serializeLeg leg).2.map isEmptyPlaceholder
      = leg.map (fun pr => pr.bezier.isNone) := by
  induction leg with
  | nil => rfl
  | cons pr rest ih =>
      cases hbez : pr.bezier with
      | none => simp [serializeLeg, hbez, isEmptyPlaceholder, ih]
      | some bz =>
          simp [serializeLeg, hbez, isEmptyPlaceholder, bezierBNode, ih]

/-- Re-parsing a serialized leg recovers the Bezier pattern positionally
(for legs whose coordinates are present, per the spec's data model). -/
theorem parseLegPairs_roundtrip (leg : List PointBezierPair)
    (hwf : ∀ pr ∈ leg, pr.point.x.isSome ∧ pr.point.y.isSome ∧
      (pr.bezier.all fun bz => bz.cp0.x.isSome && bz.cp0.y.isSome &&
        bz.cp1.x.isSome && bz.cp1.y.isSome) = true) :
    ∃ parsed, parseLegPairs (transportList (serializeLeg leg).1)
        (some (transportList (serializeLeg leg).2)) = .ok parsed ∧
      parsed.map (fun pr => pr.bezier.isSome)
        = leg.map (fun pr => pr.bezier.isSome) := by
  induction leg with
  | nil => exact ⟨[], rfl, rfl⟩
  | cons pr rest ih =>
      obtain ⟨hx, hy, hbz⟩ := hwf pr (List.mem_cons_self pr rest)
      obtain ⟨parsedRest, hrest, hmap⟩ :=
        ih (fun p hp => hwf p (List.mem_cons_of_mem pr hp))
      obtain ⟨⟨ox, oy⟩, obz⟩ := pr
      obtain ⟨px, rfl⟩ := Option.isSome_iff_exists.mp hx
      obtain ⟨py, rfl⟩ := Option.isSome_iff_exists.mp hy
      cases obz with
      | none =>
          refine ⟨⟨⟨some px, some py⟩, none⟩ :: parsedRest, ?_, ?_⟩
          · show parseLegPairs
                (XVal.node [("x", px), ("y", py)] none []
                  :: transportList (serializeLeg rest).1)
                (some (XVal.emptyStr :: transportList (serializeLeg rest).2))
                = _
            simp only [parseLegPairs, hrest]
            rfl
          · simp [hmap]
      | some bz =>
          obtain ⟨⟨c0x, c0y⟩, ⟨c1x, c1y⟩⟩ := bz
          simp only [Option.all, Bool.and_eq_true] at hbz
          obtain ⟨⟨⟨h1, h2⟩, h3⟩, h4⟩ := hbz
          obtain ⟨b0x, rfl⟩ := Option.isSome_iff_exists.mp h1
          obtain ⟨b0y, rfl⟩ := Option.isSome_iff_exists.mp h2
          obtain ⟨b1x, rfl⟩ := Option.isSome_iff_exists.mp h3
          obtain ⟨b1y, rfl⟩ := Option.isSome_iff_exists.mp h4
          refine ⟨⟨⟨some px, some py⟩,
            some ⟨⟨some b0x, some b0y⟩, ⟨some b1x, some b1y⟩⟩⟩
              :: parsedRest, ?_, ?_⟩
          · show parseLegPairs
                (XVal.node [("x", px), ("y", py)] none []
                  :: transportList (serializeLeg rest).1)
                (some (XVal.node [] none
                  [("cp0", [XVal.node [("x", b0x), ("y", b0y)] none []]),
                   ("cp1", [XVal.node [("x", b1x), ("y", b1y)] none []])]
                  :: transportList (serializeLeg rest).2))
                = _
            simp only [parseLegPairs, hrest]
            rfl
          · simp [hmap]

/-- C7: For every InstanceConnector whose leg has length k > 0,
serialization emits exactly k point entries and exactly k bezier entries
in the leg element — a pair with no Bezier contributes an empty
placeholder in the bezier array rather than being omitted — and parsing
re-pairs the two arrays positionally, giving index d a Bezier exactly
when slot d is not the empty placeholder (stated positionally via the
two map equalities; coordinates are assumed present, as in the spec's
numeric data model). -/
theorem c7_leg_bezier_pairing (leg : List PointBezierPair)
    (hk : 0 < leg.length)
    (hwf : ∀ pr ∈ leg, pr.point.x.isSome ∧ pr.point.y.isSome ∧
      (pr.bezier.all fun bz => bz.cp0.x.isSome && bz.cp0.y.isSome &&
        bz.cp1.x.isSome && bz.cp1.y.isSome) = true) :
    (serializeLeg leg).1.length = leg.length ∧
    (serializeLeg leg).2.length = leg.length ∧
    (serializeLeg leg).2.map isEmptyPlaceholder
      = leg.map (fun pr => pr.bezier.isNone) ∧
    ∃ parsed, parseLeg (some [transport (serializeLegNode leg)]) = .ok parsed ∧
      parsed.length = leg.length ∧
      parsed.map (fun pr => pr.bezier.isSome)
        = leg.map (fun pr => pr.bezier.isSome) := by
  refine ⟨(serializeLeg_length leg).1, (serializeLeg_length leg).2,
    serializeLeg_placeholders leg, ?_⟩
  obtain ⟨parsed, hp, hm⟩ := parseLegPairs_roundtrip leg hwf
  rcases hps : transportList (serializeLeg leg).1 with _ | ⟨p0, ptl⟩
  · exfalso
    have hlen := transportList_length (serializeLeg leg).1
    rw [hps, (serializeLeg_length leg).1] at hlen
    simp at hlen
    omega
  rcases hbs : transportList (serializeLeg leg).2 with _ | ⟨b0, btl⟩
  · exfalso
    have hlen := transportList_length (serializeLeg leg).2
    rw [hbs, (serializeLeg_length leg).2] at hlen
    simp at hlen
    omega
  have htr : transport (serializeLegNode leg)
      = .node [] none [("point", p0 :: ptl), ("bezier", b0 :: btl)] := by
    simp only [serializeLegNode, transport, transportKids]
    rw [hps, hbs]
    rfl
  rw [hps, hbs] at hp
  refine ⟨parsed, ?_, ?_, hm⟩
  · rw [htr]
    exact hp
  · have hlen := congrArg List.length hm
    simpa using hlen

/-- Witness for C7 at the spec's example leg (one bare point, one point
with a Bezier). -/
theorem c7_leg_bezier_pairing_witness :
    0 < c7Leg.length ∧
    ((serializeLeg c7Leg).1.length = c7Leg.length ∧
     (serializeLeg c7Leg).2.length = c7Leg.length ∧
     (serializeLeg c7Leg).2.map isEmptyPlaceholder
       = c7Leg.map (fun pr => pr.bezier.isNone) ∧
     ∃ parsed,
       parseLeg (some [transport (serializeLegNode c7Leg)]) = .ok parsed ∧
       parsed.length = c7Leg.length ∧
       parsed.map (fun pr => pr.bezier.isSome)
         = c7Leg.map (fun pr => pr.bezier.isSome)) :=
  ⟨by decide, c7_leg_bezier_pairing c7Leg (by decide) (by decide)⟩

/-- C1: the round trip Part.fromFZP(Part.toFZP(p)) does not give a Part
back its subparts: `toFZP` writes the container element `subparts` while
`fromFZP` reads `schematic-subparts`, so `c1Part` — which has one
subpart — round-trips to a Part whose subparts collection is empty,
against the claim that a Part with a non-empty subparts collection gets
its subparts back. -/
theorem c1_part_roundtrip_drops_subparts :
    partRoundTrip c1Part = .ok c1Parsed ∧
    c1Parsed.subparts = [] ∧
    c1Part.subparts = [Subpart.mk (some "s1") (some "Half A")
      [some "connector0"]] :=
  ⟨rfl, rfl, rfl⟩

/-- C4: the shared `setOptionalValue` helper is a truthiness check, not a
presence check: an absent value writes nothing — that much the claim gets
right — but a present falsy value (the empty string) is also dropped, so
serialization does not distinguish "absent" from "present and falsy";
end to end, a view with `backgroundColor` present-but-empty serializes
with no `backgroundColor` attribute, exactly like one with the field
absent. -/
theorem c4_setOptionalValue_falsy_collapse :
    setOptionalAttr [] "width" none = [] ∧
    setOptionalAttr [] "width" (some "") = [] ∧
    setOptionalAttr [] "width" (some "0.5in") =
      [("width", BAttrV.s "0.5in")] ∧
    setOptionalKid [] "description" none = [] ∧
    setOptionalKid [] "description" (some "") = [] ∧
    setOptionalKid [] "description" (some "d") =
      [("description", [BVal.vstr "d"])] ∧
    getOptAttr (transport (serializeSketchView c4ViewNoBg))
      "backgroundColor" = none ∧
    getOptAttr (transport (serializeSketchView c4ViewEmptyBg))
      "backgroundColor" = none :=
  ⟨rfl, rfl, rfl, rfl, rfl, rfl, rfl, rfl⟩

/-- A rejected head rejects the aggregate. -/
theorem promiseAll_cons_error {β : Type} {err : JsErr}
    {x : Except JsErr β} {rest : List (Except JsErr β)}
    (h : x = .error err) : promiseAll (x :: rest) = .error err := by
  rw [h]
  rfl

/-- A resolved head passes the aggregate on; a rejected tail rejects
it. -/
theorem promiseAll_cons_ok_error {β : Type} (b : β) {err : JsErr}
    {x : Except JsErr β} {rest : List (Except JsErr β)}
    (hx : x = .ok b) (hrest : promiseAll rest = .error err) :
    promiseAll (x :: rest) = .error err := by
  rw [hx]
  show ((promiseAll rest) >>= fun xs => Except.ok (b :: xs)) = .error err
  rw [hrest]
  rfl

/-- C2: Bundle.fromZip never resolves, so it cannot return the bundle
round trip the claim describes: `toZip` does pack one entry per primary
and per auxiliary, but `fromZip` runs its per-entry promise executors and
its final `new this(primary, auxiliary)` with the `undefined` receiver
strict mode gives plain callbacks, so the parse of any archive — the
serialized bundle included — rejects with a TypeError instead of
resolving with the N primary and M auxiliary entries. -/
theorem c2_bundle_fromZip_always_rejects (α : Type) (ops : BundleOps α)
    (b : Bundle α) :
    (Bundle.toZip ops b).length = b.primary.length + b.auxiliary.length ∧
    Bundle.fromZip α (Bundle.toZip ops b) = .error .typeError ∧
    ∀ zip : List ZipEntry, Bundle.fromZip α zip =
      .error .typeError := by
  have hall : ∀ zip : List ZipEntry,
      Bundle.fromZip α zip = .error .typeError := by
    intro zip
    cases zip <;> rfl
  exact ⟨by simp [Bundle.toZip], hall _, hall⟩

/-- C3: an archive with a zero-length entry fails wholesale.
`PartBin.fromFZB` fails exactly as the claim says: the parse rejects with
the error naming the first empty entry and returns nothing else.
`Bundle.fromZip` also returns no partial result, but its rejection is
the receiver TypeError of C2 — raised before any entry content is
examined — not an error naming the empty entry. -/
theorem c3_empty_entry_failure (pre post : List ZipEntry) (e : ZipEntry)
    (hpre : ∀ e2 ∈ pre, e2.content.isEmptyText = false)
    (he : e.content.isEmptyText = true) :
    PartBin.fromFZB (pre ++ e :: post) =
      .error (.emptyEntry e.entryName) ∧
    Bundle.fromZip Part (pre ++ e :: post) = .error .typeError := by
  constructor
  · have hp : promiseAll ((pre ++ e :: post).map fzbEntry)
        = .error (.emptyEntry e.entryName) := by
      induction pre with
      | nil =>
          exact promiseAll_cons_error (by simp [fzbEntry, he])
      | cons p pre2 ih =>
          have hfp := hpre p (List.mem_cons_self p pre2)
          exact promiseAll_cons_ok_error
            (jsSplitHead p.entryName, partFromText p.content)
            (by simp [fzbEntry, hfp])
            (ih fun q hq => hpre q (List.mem_cons_of_mem p hq))
    unfold PartBin.fromFZB
    rw [hp]
    rfl
  · cases pre <;> rfl

/-- Witness for C3: a two-entry archive whose second entry is empty. -/
theorem c3_empty_entry_failure_witness :
    PartBin.fromFZB ([c3Good] ++ c3Empty :: []) =
      .error (.emptyEntry c3Empty.entryName) ∧
    Bundle.fromZip Part ([c3Good] ++ c3Empty :: []) =
      .error .typeError :=
  c3_empty_entry_failure [c3Good] [] c3Empty
    (by
      intro e2 he2
      cases he2 with
      | head => rfl
      | tail _ h => cases h)
    rfl

end Freetzing
